import Mathlib

/-!
# NeuroFusion-Reactor: shallow embedding of the plasma-physics core

This file embeds the computational core of the NeuroFusion-Reactor
simulation (particle store, torus geometry, magnetic-field model, and the
`PlasmaPhysics` engine: per-step integration, boundary collision response,
population-level fusion sampling, fusion reactions, seeding and fuel
injection) into Lean, and proves or refutes the specified properties.

Modelling conventions:
* C++ `float` values are modelled as real numbers; float rounding is not
  modelled.  `std::sqrt`, `std::cos`, ... become `Real.sqrt`, `Real.cos`, ...
* C++ `int`/`size_t` counters that are provably nonnegative are modelled as
  `ℕ`.  The C-style cast `(int)x` on a nonnegative real is `⌊x⌋₊`; where the
  source immediately clamps a possibly-negative truncation at zero
  (`maxThisStep`), `⌊x⌋₊` coincides with truncate-then-clamp and is used
  directly.
* The Mersenne-twister generator is modelled as a pair of oracle streams
  (one for real draws, one for integer draws) plus a cursor; each draw
  consumes one position.  A `std::uniform_real_distribution(lo, hi)` draw
  is guaranteed by the C++ standard to land in `[lo, hi]`; this is modelled
  by clamping the raw stream value into the unit interval and rescaling.
  `std::normal_distribution(0, s)` is `s` times an unconstrained raw value.
* `std::isfinite` is represented by `isFiniteR`, which is identically `true`
  on `ℝ`: the real-number model has no NaN/infinity, so the non-finite
  recovery branch of `updateParticles` is unreachable here (it is kept in
  the definition so the control flow matches the source).
-/

namespace NeuroFusion

noncomputable section

open Real

/-- Particle species tag (`enum Particle::Type` in `particle.h`). -/
inductive ParticleType
  | DEUTERIUM
  | TRITIUM
  | HELIUM
  | NEUTRON
  | ELECTRON
  deriving DecidableEq

/-- `struct Particle` from `particle.h` (position, velocity, physical
constants, display hints, species tag, derived kinetic energy, lifecycle
flag). -/
structure Particle where
  x : ℝ
  y : ℝ
  z : ℝ
  vx : ℝ
  vy : ℝ
  vz : ℝ
  mass : ℝ
  charge : ℝ
  radius : ℝ
  r : ℝ
  g : ℝ
  b : ℝ
  a : ℝ
  type : ParticleType
  kineticEnergy : ℝ
  active : Bool

/- Physical constants from `namespace PhysicsConstants` in `particle.h`. -/
namespace PhysicsConstants

def ELECTRON_MASS : ℝ := 9.109e-31
def PROTON_MASS : ℝ := 1.673e-27
def DEUTERIUM_MASS : ℝ := 3.344e-27
def TRITIUM_MASS : ℝ := 5.008e-27
def HELIUM_MASS : ℝ := 6.646e-27
def NEUTRON_MASS : ℝ := 1.675e-27
def ELEMENTARY_CHARGE : ℝ := 1.602e-19
def VACUUM_PERMITTIVITY : ℝ := 8.854e-12
def COULOMB_CONSTANT : ℝ := 8.988e9
def BOLTZMANN_CONSTANT : ℝ := 1.381e-23
def FUSION_THRESHOLD_ENERGY : ℝ := 1.0e-14
def FUSION_CROSS_SECTION : ℝ := 1.0e-28

end PhysicsConstants

/-- `createParticle` from `particle.h`: builds a particle of the given
species at the given position/velocity, assigning mass, charge, colour and
radius from the species table, computing the kinetic energy, and marking it
active. -/
def createParticle (t : ParticleType) (x y vx vy : ℝ) (z : ℝ := 0)
    (vz : ℝ := 0) : Particle :=
  let base : Particle :=
    { x := x, y := y, z := z, vx := vx, vy := vy, vz := vz
      mass := 0, charge := 0, radius := 0.02, r := 0, g := 0, b := 0, a := 0
      type := t
      kineticEnergy := 0
      active := true }
  let withSpecies : Particle :=
    match t with
    | .DEUTERIUM =>
        { base with mass := PhysicsConstants.DEUTERIUM_MASS
                    charge := PhysicsConstants.ELEMENTARY_CHARGE
                    r := 0.3, g := 0.6, b := 1.0, a := 0.9 }
    | .TRITIUM =>
        { base with mass := PhysicsConstants.TRITIUM_MASS
                    charge := PhysicsConstants.ELEMENTARY_CHARGE
                    r := 0.6, g := 0.3, b := 1.0, a := 0.9 }
    | .HELIUM =>
        { base with mass := PhysicsConstants.HELIUM_MASS
                    charge := 2.0 * PhysicsConstants.ELEMENTARY_CHARGE
                    r := 1.0, g := 1.0, b := 0.3, a := 1.0, radius := 0.025 }
    | .NEUTRON =>
        { base with mass := PhysicsConstants.NEUTRON_MASS
                    charge := 0.0
                    r := 0.8, g := 0.8, b := 0.8, a := 0.7, radius := 0.015 }
    | .ELECTRON =>
        { base with mass := PhysicsConstants.ELECTRON_MASS
                    charge := -PhysicsConstants.ELEMENTARY_CHARGE
                    r := 1.0, g := 0.2, b := 0.2, a := 0.6, radius := 0.008 }
  { withSpecies with
      kineticEnergy := 0.5 * withSpecies.mass * (vx * vx + vy * vy + vz * vz) }

instance : Inhabited Particle := ⟨createParticle .DEUTERIUM 0 0 0 0 0 0⟩

/-- `struct TokamakGeometry` (`ray_tracing.cpp`): the torus radii used by
the signed-distance function, centerline projection and normal. -/
structure TokamakGeometry where
  torusMajorR : ℝ
  torusMinorR : ℝ

/-- The geometry constructed by `TokamakGeometry()` (major radius 1.2,
minor radius 0.4); these fields are never modified at runtime. -/
def defGeometry : TokamakGeometry := ⟨1.2, 0.4⟩

/-- `TokamakGeometry::torusSDF`: signed distance to the torus surface,
positive outside. -/
def TokamakGeometry.torusSDF (geo : TokamakGeometry) (x y z : ℝ) : ℝ :=
  let dxz := Real.sqrt (x * x + z * z) - geo.torusMajorR
  Real.sqrt (dxz * dxz + y * y) - geo.torusMinorR

/-- `TokamakGeometry::projectToCenterline`: nearest point on the
major-radius ring in the `y = 0` plane. -/
def TokamakGeometry.projectToCenterline (geo : TokamakGeometry)
    (x _y z : ℝ) : ℝ × ℝ × ℝ :=
  let rxz := Real.sqrt (x * x + z * z)
  if rxz < 1e-8 then (geo.torusMajorR, 0, 0)
  else (geo.torusMajorR * (x / rxz), 0, geo.torusMajorR * (z / rxz))

/-- `TokamakGeometry::torusNormal`: forward-difference gradient of the SDF
with probe offset `eps = 0.001`, normalised (with a `1e-10` floor added to
the length). -/
def TokamakGeometry.torusNormal (geo : TokamakGeometry)
    (x y z : ℝ) : ℝ × ℝ × ℝ :=
  let eps : ℝ := 0.001
  let d := geo.torusSDF x y z
  let nx := geo.torusSDF (x + eps) y z - d
  let ny := geo.torusSDF x (y + eps) z - d
  let nz := geo.torusSDF x y (z + eps) - d
  let len := Real.sqrt (nx * nx + ny * ny + nz * nz) + 1e-10
  (nx / len, ny / len, nz / len)

/-- The unnormalised forward-difference gradient used by `torusNormal`. -/
def torusNormalRaw (geo : TokamakGeometry) (x y z : ℝ) : ℝ × ℝ × ℝ :=
  (geo.torusSDF (x + 0.001) y z - geo.torusSDF x y z,
   geo.torusSDF x (y + 0.001) z - geo.torusSDF x y z,
   geo.torusSDF x y (z + 0.001) - geo.torusSDF x y z)

/-- The normalisation length used by `torusNormal` (with its `1e-10`
floor). -/
def torusNormalLen (geo : TokamakGeometry) (x y z : ℝ) : ℝ :=
  Real.sqrt ((torusNormalRaw geo x y z).1 * (torusNormalRaw geo x y z).1 +
    (torusNormalRaw geo x y z).2.1 * (torusNormalRaw geo x y z).2.1 +
    (torusNormalRaw geo x y z).2.2 * (torusNormalRaw geo x y z).2.2) + 1e-10

/-- `struct MagneticField` (`magnetic_field.h`). -/
structure MagneticField where
  B_toroidal : ℝ
  B_poloidal : ℝ
  majorRadius : ℝ
  minorRadius : ℝ
  safetyFactor : ℝ
  plasmaCurrent : ℝ

/-- The `MagneticField(R, a, Bt)` constructor: safety factor 3, plasma
current 15, derived poloidal strength `Bt·a/(R·q)`. -/
def mkMagneticField (R a Bt : ℝ) : MagneticField :=
  { B_toroidal := Bt
    B_poloidal := Bt * a / (R * 3.0)
    majorRadius := R
    minorRadius := a
    safetyFactor := 3.0
    plasmaCurrent := 15.0 }

/-- `MagneticField::getToroidalFieldMagnitude`: `B_t·R₀/R_local` with the
axis distance floored at `1e-6`. -/
def MagneticField.getToroidalFieldMagnitude (fld : MagneticField)
    (x _y z : ℝ) : ℝ :=
  let R_local := Real.sqrt (x * x + z * z)
  let R_local := if R_local < 1e-6 then 1e-6 else R_local
  fld.B_toroidal * fld.majorRadius / R_local

/-- `MagneticField::getToroidalFieldDir`: unit tangent `(-z, 0, x)/R` to
the ring through the point (`(0,0,1)` on the axis). -/
def MagneticField.getToroidalFieldDir (_fld : MagneticField)
    (x z : ℝ) : ℝ × ℝ × ℝ :=
  let R := Real.sqrt (x * x + z * z)
  if R < 1e-6 then (0, 0, 1)
  else (-z / R, 0, x / R)

/-- `MagneticField::getPoloidalField3D`. -/
def MagneticField.getPoloidalField3D (fld : MagneticField)
    (x y z : ℝ) : ℝ × ℝ × ℝ :=
  let Rxz := Real.sqrt (x * x + z * z)
  let Rxz := if Rxz < 1e-6 then 1e-6 else Rxz
  let cx := fld.majorRadius * (x / Rxz)
  let cz := fld.majorRadius * (z / Rxz)
  let rx := x - cx
  let ry := y
  let rz := z - cz
  let rLen := Real.sqrt (rx * rx + ry * ry + rz * rz)
  let rLen := if rLen < 1e-6 then 1e-6 else rLen
  let rnx := rx / rLen
  let rny := ry / rLen
  let rnz := rz / rLen
  let td := fld.getToroidalFieldDir x z
  let pdx := td.2.1 * rnz - td.2.2 * rny
  let pdy := td.2.2 * rnx - td.1 * rnz
  let pdz := td.1 * rny - td.2.1 * rnx
  let rFrac := rLen / fld.minorRadius
  let rFrac := if rFrac > 2.0 then 2.0 else rFrac
  let B_pol := fld.B_poloidal * rFrac
  (B_pol * pdx, B_pol * pdy, B_pol * pdz)

/-- `MagneticField::getTotalField` (3-argument overload): poloidal plus
toroidal component. -/
def MagneticField.getTotalField (fld : MagneticField)
    (x y z : ℝ) : ℝ × ℝ × ℝ :=
  let Bp := fld.getPoloidalField3D x y z
  let Bt := fld.getToroidalFieldMagnitude x y z
  let td := fld.getToroidalFieldDir x z
  (Bp.1 + Bt * td.1, Bp.2.1 + Bt * td.2.1, Bp.2.2 + Bt * td.2.2)

/-- `calculateLorentzForce`: `q·(v × B)`. -/
def calculateLorentzForce (vx vy vz Bx By Bz charge : ℝ) : ℝ × ℝ × ℝ :=
  (charge * (vy * Bz - vz * By),
   charge * (vz * Bx - vx * Bz),
   charge * (vx * By - vy * Bx))

/-- `calculateMirrorForce3D`: `−μ·∇|B|` with the gradient of `|B|`
estimated by central differences with probe offset `0.01`. -/
def calculateMirrorForce3D (x y z vx vy vz : ℝ) (fld : MagneticField)
    (mass : ℝ) : ℝ × ℝ × ℝ :=
  let dx : ℝ := 0.01
  let normB : ℝ × ℝ × ℝ → ℝ := fun B =>
    Real.sqrt (B.1 * B.1 + B.2.1 * B.2.1 + B.2.2 * B.2.2)
  let dBdx := (normB (fld.getTotalField (x + dx) y z) -
               normB (fld.getTotalField (x - dx) y z)) / (2.0 * dx)
  let dBdy := (normB (fld.getTotalField x (y + dx) z) -
               normB (fld.getTotalField x (y - dx) z)) / (2.0 * dx)
  let dBdz := (normB (fld.getTotalField x y (z + dx)) -
               normB (fld.getTotalField x y (z - dx))) / (2.0 * dx)
  let v_perp_sq := vx * vx + vy * vy + vz * vz
  let B0 := normB (fld.getTotalField x y z) + 1e-10
  let mu := mass * v_perp_sq / (2.0 * B0)
  (-mu * dBdx, -mu * dBdy, -mu * dBdz)

/-- The pseudo-random generator (`std::mt19937 rng`), modelled as two
oracle streams (real draws and integer draws) plus a cursor; each draw
consumes one cursor position, so all draws within a step are sequenced
deterministically. -/
structure Rng where
  u : ℕ → ℝ
  n : ℕ → ℕ
  k : ℕ

/-- Clamp a raw stream value into the unit interval. -/
def clampUnit (x : ℝ) : ℝ := max 0 (min 1 x)

/-- Advance the generator cursor by one draw. -/
def Rng.next (rg : Rng) : Rng := { rg with k := rg.k + 1 }

/-- A `std::uniform_real_distribution(lo, hi)` draw: the C++ standard
guarantees a value in the requested range, modelled as `lo + (hi-lo)·u`
with `u` the raw stream value clamped into `[0,1]`. -/
def Rng.uniformR (lo hi : ℝ) (rg : Rng) : ℝ × Rng :=
  (lo + (hi - lo) * clampUnit (rg.u rg.k), rg.next)

/-- A `std::normal_distribution(0, sigma)` draw: `sigma` times an
unconstrained raw value. -/
def Rng.normalR (sigma : ℝ) (rg : Rng) : ℝ × Rng :=
  (sigma * rg.u rg.k, rg.next)

/-- A `std::uniform_int_distribution(0, bound-1)` draw. -/
def Rng.uniformN (bound : ℕ) (rg : Rng) : ℕ × Rng :=
  (rg.n rg.k % bound, rg.next)

/-- A raw `rng()` call. -/
def Rng.raw (rg : Rng) : ℕ × Rng :=
  (rg.n rg.k, rg.next)

/-- The tunable parameter set of `PlasmaPhysics`, with the constructor's
default values.  (`fusionProbability` is initialised to 0 and never read.) -/
structure Params where
  timeScale : ℝ := 1e-2
  plasmaTemperature : ℝ := 1.0e9
  particleDensity : ℝ := 1e20
  velocityScale : ℝ := 1e-7
  fusionProbability : ℝ := 0.0
  fusionBoost : ℝ := 1.0e6
  maxFusionFractionPerStep : ℝ := 0.02
  confinementStrength : ℝ := 50.0
  coreAttractionStrength : ℝ := 8.0
  driftOmega : ℝ := 2.5
  wallLossProbability : ℝ := 0.0
  enableCoulomb : Bool := false

/-- The default parameter set. -/
def defParams : Params := {}

/-- `PlasmaPhysics::getThermalVelocity`: `sqrt(3·k_B·T/m)`. -/
def getThermalVelocity (P : Params) (mass : ℝ) : ℝ :=
  Real.sqrt (3.0 * PhysicsConstants.BOLTZMANN_CONSTANT *
    P.plasmaTemperature / mass)

/-- Euclidean separation of two particles, as computed inside
`attemptFusion` (`distance = sqrt(dx²+dy²+dz²)` with `d = p2 - p1`). -/
def pairDistance (p1 p2 : Particle) : ℝ :=
  Real.sqrt ((p2.x - p1.x) * (p2.x - p1.x) + (p2.y - p1.y) * (p2.y - p1.y) +
    (p2.z - p1.z) * (p2.z - p1.z))

/-- Result of one `attemptFusion` call: success flag, the two reactants
after the call, the particles pushed onto the pending-creation buffer, and
the generator state. -/
structure FusionOutcome where
  ok : Bool
  q1 : Particle
  q2 : Particle
  created : List Particle
  rng : Rng

/-- `PlasmaPhysics::attemptFusion`.  Non-forced attempts pass three gates
(center-of-mass energy threshold, interaction distance `0.03`, probability
draw); forced attempts skip all three.  On success the two reactants are
deactivated and an active Helium-4 / Neutron pair is created at the
mass-weighted center of mass, emitted back-to-back along an isotropically
sampled direction offset by the center-of-mass velocity. -/
def attemptFusion (P : Params) (p1 p2 : Particle) (rng : Rng) (dt : ℝ)
    (force : Bool) : FusionOutcome :=
  let vrel_x := p1.vx - p2.vx
  let vrel_y := p1.vy - p2.vy
  let vrel_z := p1.vz - p2.vz
  let vrel := Real.sqrt (vrel_x * vrel_x + vrel_y * vrel_y + vrel_z * vrel_z)
  let reducedMass := p1.mass * p2.mass / (p1.mass + p2.mass)
  let E_cm := 0.5 * reducedMass * vrel * vrel
  if force = false ∧ E_cm < PhysicsConstants.FUSION_THRESHOLD_ENERGY then
    ⟨false, p1, p2, [], rng⟩
  else
    let distance := pairDistance p1 p2
    let crossSection := PhysicsConstants.FUSION_CROSS_SECTION *
      (E_cm / PhysicsConstants.FUSION_THRESHOLD_ENERGY)
    if force = false ∧ distance > 0.03 then
      ⟨false, p1, p2, [], rng⟩
    else
      let gate : Bool × Rng :=
        if force then (true, rng)
        else
          let fusionChance := crossSection * P.particleDensity * vrel * dt *
            P.fusionBoost
          let fusionChance := if fusionChance < 0.0 then 0.0 else fusionChance
          let fusionChance := if fusionChance > 1.0 then 1.0 else fusionChance
          let d := rng.uniformR 0.0 1.0
          (!decide (d.1 > fusionChance), d.2)
      if gate.1 = false then ⟨false, p1, p2, [], gate.2⟩
      else
        let msum := p1.mass + p2.mass
        let cm_x := (p1.mass * p1.x + p2.mass * p2.x) / msum
        let cm_y := (p1.mass * p1.y + p2.mass * p2.y) / msum
        let cm_z := (p1.mass * p1.z + p2.mass * p2.z) / msum
        let cm_vx := (p1.mass * p1.vx + p2.mass * p2.vx) / msum
        let cm_vy := (p1.mass * p1.vy + p2.mass * p2.vy) / msum
        let cm_vz := (p1.mass * p1.vz + p2.mass * p2.vz) / msum
        let E_alpha := 3.5e6 * PhysicsConstants.ELEMENTARY_CHARGE
        let E_neutron := 14.1e6 * PhysicsConstants.ELEMENTARY_CHARGE
        let phiDraw := gate.2.uniformR 0.0 (2.0 * π)
        let cosDraw := phiDraw.2.uniformR (-1.0) 1.0
        let phi := phiDraw.1
        let cosTheta := cosDraw.1
        let sinTheta := Real.sqrt (1.0 - cosTheta * cosTheta)
        let v_alpha := Real.sqrt (2.0 * E_alpha / PhysicsConstants.HELIUM_MASS)
        let v_neutron :=
          Real.sqrt (2.0 * E_neutron / PhysicsConstants.NEUTRON_MASS)
        let dirx := sinTheta * Real.cos phi
        let diry := sinTheta * Real.sin phi
        let dirz := cosTheta
        let vx_he := (cm_vx + v_alpha * dirx) * P.velocityScale
        let vy_he := (cm_vy + v_alpha * diry) * P.velocityScale
        let vz_he := (cm_vz + v_alpha * dirz) * P.velocityScale
        let vx_n := (cm_vx - v_neutron * dirx) * P.velocityScale
        let vy_n := (cm_vy - v_neutron * diry) * P.velocityScale
        let vz_n := (cm_vz - v_neutron * dirz) * P.velocityScale
        let helium := createParticle .HELIUM cm_x cm_y vx_he vy_he cm_z vz_he
        let neutron := createParticle .NEUTRON cm_x cm_y vx_n vy_n cm_z vz_n
        ⟨true, { p1 with active := false }, { p2 with active := false },
          [helium, neutron], cosDraw.2⟩

/-- `PlasmaPhysics::applyMagneticForce3D`.  Particles whose charge is
below `1e-30` in magnitude are returned unchanged (early `return`); for
charged particles the Lorentz and mirror forces are integrated into the
velocity, then the core-attraction increment (guarded by `dist > 1e-8`)
and the toroidal drift increment (guarded by `R > 1e-6`) are added. -/
def applyMagneticForce3D (P : Params) (fld : MagneticField)
    (geo : TokamakGeometry) (p : Particle) (scaledDt _realDt : ℝ) : Particle :=
  if |p.charge| < 1e-30 then p
  else
    let B := fld.getTotalField p.x p.y p.z
    let FL := calculateLorentzForce p.vx p.vy p.vz B.1 B.2.1 B.2.2 p.charge
    let FM := calculateMirrorForce3D p.x p.y p.z p.vx p.vy p.vz fld p.mass
    let forceScale : ℝ := 1e-6
    let Fx := (FL.1 + FM.1) * forceScale
    let Fy := (FL.2.1 + FM.2.1) * forceScale
    let Fz := (FL.2.2 + FM.2.2) * forceScale
    let vx1 := p.vx + (Fx / p.mass) * scaledDt
    let vy1 := p.vy + (Fy / p.mass) * scaledDt
    let vz1 := p.vz + (Fz / p.mass) * scaledDt
    let c := geo.projectToCenterline p.x p.y p.z
    let dx := p.x - c.1
    let dy := p.y - c.2.1
    let dz := p.z - c.2.2
    let dist := Real.sqrt (dx * dx + dy * dy + dz * dz)
    let pull := P.coreAttractionStrength / (dist + 0.01)
    let vx2 := if dist > 1e-8 then vx1 + (-pull * dx) * scaledDt else vx1
    let vy2 := if dist > 1e-8 then vy1 + (-pull * dy) * scaledDt else vy1
    let vz2 := if dist > 1e-8 then vz1 + (-pull * dz) * scaledDt else vz1
    let R := Real.sqrt (p.x * p.x + p.z * p.z)
    let vx3 := if R > 1e-6 then vx2 + P.driftOmega * (-p.z / R) * scaledDt
      else vx2
    let vz3 := if R > 1e-6 then vz2 + P.driftOmega * (p.x / R) * scaledDt
      else vz2
    { p with vx := vx3, vy := vy2, vz := vz3 }

/-- `PlasmaPhysics::applyCoulombForce`: screened Coulomb force applied
reciprocally to both particles (velocity updates only). -/
def applyCoulombForce (P : Params) (p1 p2 : Particle)
    (dt : ℝ) : Particle × Particle :=
  let dx := p2.x - p1.x
  let dy := p2.y - p1.y
  let dz := p2.z - p1.z
  let rr := Real.sqrt (dx * dx + dy * dy + dz * dz)
  let rr := if rr < 1e-6 then 1e-6 else rr
  let forceMagnitude := PhysicsConstants.COULOMB_CONSTANT *
    p1.charge * p2.charge / (rr * rr)
  let fx := forceMagnitude * dx / rr
  let fy := forceMagnitude * dy / rr
  let fz := forceMagnitude * dz / rr
  let debyeLength := 7.43e2 *
    Real.sqrt (P.plasmaTemperature / P.particleDensity)
  let screeningFactor := Real.exp (-rr / debyeLength)
  let forceScale : ℝ := 1e-6
  let fx := fx * screeningFactor * forceScale
  let fy := fy * screeningFactor * forceScale
  let fz := fz * screeningFactor * forceScale
  ({ p1 with vx := p1.vx + (fx / p1.mass) * dt
             vy := p1.vy + (fy / p1.mass) * dt
             vz := p1.vz + (fz / p1.mass) * dt },
   { p2 with vx := p2.vx + (-fx / p2.mass) * dt
             vy := p2.vy + (-fy / p2.mass) * dt
             vz := p2.vz + (-fz / p2.mass) * dt })

/-- `PlasmaPhysics::checkBoundaryCollision3D`.  Outside the torus
(`sdf > 0`): velocity push-back, positional correction by
`(sdf + edgeBuffer)·1.05` along the inward normal, removal of the
outward-normal velocity component, and probabilistic wall loss.  In the
near-boundary band (`-0.02 < sdf ≤ 0`): softer damping and normal-component
removal only. -/
def checkBoundaryCollision3D (P : Params) (geo : TokamakGeometry)
    (p : Particle) (dt : ℝ) (rng : Rng) : Particle × Rng :=
  let sdf := geo.torusSDF p.x p.y p.z
  if sdf > 0.0 then
    let nv := geo.torusNormal p.x p.y p.z
    let nx := nv.1
    let ny := nv.2.1
    let nz := nv.2.2
    let pushStrength := P.confinementStrength * sdf
    let vx1 := p.vx - pushStrength * nx * dt
    let vy1 := p.vy - pushStrength * ny * dt
    let vz1 := p.vz - pushStrength * nz * dt
    let edgeBuffer : ℝ := 0.01
    let x1 := p.x - (sdf + edgeBuffer) * nx * 1.05
    let y1 := p.y - (sdf + edgeBuffer) * ny * 1.05
    let z1 := p.z - (sdf + edgeBuffer) * nz * 1.05
    let vdotn := vx1 * nx + vy1 * ny + vz1 * nz
    let vx2 := if vdotn > 0.0 then vx1 - vdotn * nx else vx1
    let vy2 := if vdotn > 0.0 then vy1 - vdotn * ny else vy1
    let vz2 := if vdotn > 0.0 then vz1 - vdotn * nz else vz1
    let p1 : Particle := { p with x := x1, y := y1, z := z1,
                                  vx := vx2, vy := vy2, vz := vz2 }
    if P.wallLossProbability > 0.0 then
      let d := rng.uniformR 0.0 1.0
      (if d.1 < P.wallLossProbability then { p1 with active := false }
       else p1, d.2)
    else (p1, rng)
  else if sdf > -0.02 then
    let nv := geo.torusNormal p.x p.y p.z
    let nx := nv.1
    let ny := nv.2.1
    let nz := nv.2.2
    let penetration := sdf + 0.02
    let vx1 := p.vx - P.confinementStrength * penetration * nx * dt
    let vy1 := p.vy - P.confinementStrength * penetration * ny * dt
    let vz1 := p.vz - P.confinementStrength * penetration * nz * dt
    let vdotn := vx1 * nx + vy1 * ny + vz1 * nz
    let vx2 := if vdotn > 0.0 then vx1 - vdotn * nx else vx1
    let vy2 := if vdotn > 0.0 then vy1 - vdotn * ny else vy1
    let vz2 := if vdotn > 0.0 then vz1 - vdotn * nz else vz1
    ({ p with vx := vx2, vy := vy2, vz := vz2 }, rng)
  else (p, rng)

/-- `std::isfinite` on the model scalars: every real number is finite (the
model has no NaN/infinity), so this is identically `true`.  It is kept so
that the non-finite recovery branch of the source appears in the
definition of the sweep. -/
def isFiniteR (_x : ℝ) : Bool := true

/-- The non-finite recovery rule of `updateParticles`: place the particle
at a random point of the magnetic-axis ring (`phi = 2π·(rng()%10000)/10000`)
with zero velocity. -/
def resetToAxis (geo : TokamakGeometry) (p : Particle)
    (rng : Rng) : Particle × Rng :=
  let d := rng.raw
  let phi := 2.0 * π * (((d.1 % 10000 : ℕ) : ℝ)) / 10000.0
  ({ p with x := geo.torusMajorR * Real.cos phi
            y := 0.0
            z := geo.torusMajorR * Real.sin phi
            vx := 0.0, vy := 0.0, vz := 0.0 }, d.2)

/-- State threaded through the per-particle sweep of `updateParticles`:
the store, the generator, and the Deuterium/Tritium index lists being
accumulated. -/
structure SweepState where
  ps : List Particle
  rng : Rng
  dIdx : List ℕ
  tIdx : List ℕ

/-- One iteration of the inner Coulomb loop: mutual force between
particles `i` and `j` when particle `j` is active. -/
def coulombStep (P : Params) (dt : ℝ) (i : ℕ) (ps : List Particle)
    (j : ℕ) : List Particle :=
  let pj := ps.getD j default
  if pj.active then
    let pi := ps.getD i default
    let f := applyCoulombForce P pi pj dt
    (ps.set i f.1).set j f.2
  else ps

/-- The inner Coulomb loop of `updateParticles`: `j` from `i+1` to the end
of the store. -/
def coulombPass (P : Params) (dt : ℝ) (i : ℕ)
    (ps : List Particle) : List Particle :=
  (List.range' (i + 1) (ps.length - (i + 1))).foldl (coulombStep P dt i) ps

/-- One iteration `i` of the per-particle sweep of `updateParticles`:
skip inactive particles; record Deuterium/Tritium indices; integrate the
magnetic force; optionally run the Coulomb loop; integrate the position;
recover from non-finite state; recompute kinetic energy; run the boundary
collision response. -/
def sweepStep (P : Params) (fld : MagneticField) (geo : TokamakGeometry)
    (scaledDt realDt : ℝ) (st : SweepState) (i : ℕ) : SweepState :=
  let p := st.ps.getD i default
  if p.active = false then st
  else
    let dIdx1 := if p.type = .DEUTERIUM then st.dIdx ++ [i] else st.dIdx
    let tIdx1 := if p.type = .TRITIUM then st.tIdx ++ [i] else st.tIdx
    let p1 := applyMagneticForce3D P fld geo p scaledDt realDt
    let ps1 := st.ps.set i p1
    let ps2 := if P.enableCoulomb then coulombPass P scaledDt i ps1 else ps1
    let p2 := ps2.getD i default
    let p3 := { p2 with x := p2.x + p2.vx * scaledDt
                        y := p2.y + p2.vy * scaledDt
                        z := p2.z + p2.vz * scaledDt }
    let rec1 :=
      if isFiniteR p3.x ∧ isFiniteR p3.y ∧ isFiniteR p3.z ∧
         isFiniteR p3.vx ∧ isFiniteR p3.vy ∧ isFiniteR p3.vz
      then (p3, st.rng)
      else resetToAxis geo p3 st.rng
    let p4 := rec1.1
    let p5 := { p4 with kineticEnergy := 0.5 * p4.mass *
                  (p4.vx * p4.vx + p4.vy * p4.vy + p4.vz * p4.vz) }
    let bc := checkBoundaryCollision3D P geo p5 scaledDt rec1.2
    { ps := ps2.set i bc.1, rng := bc.2, dIdx := dIdx1, tIdx := tIdx1 }

/-- The full per-particle sweep: fold `sweepStep` over the indices of the
store as it stood on entry to `updateParticles`. -/
def sweepPhase (P : Params) (fld : MagneticField) (geo : TokamakGeometry)
    (scaledDt realDt : ℝ) (ps : List Particle) (rng : Rng) : SweepState :=
  (List.range ps.length).foldl (sweepStep P fld geo scaledDt realDt)
    ⟨ps, rng, [], []⟩

/-- The torus volume `2π²·R·r²` computed by the fusion-sampling pass. -/
def torusVolume (geo : TokamakGeometry) : ℝ :=
  2.0 * π * π * geo.torusMajorR * geo.torusMinorR * geo.torusMinorR

/-- The torus volume floored at `1e-8`. -/
def torusVolumeFloored (geo : TokamakGeometry) : ℝ :=
  if torusVolume geo < 1e-8 then 1e-8 else torusVolume geo

/-- The plasma temperature converted to keV and floored at `1e-6`. -/
def tKeVFloored (P : Params) : ℝ :=
  let T_keV := P.plasmaTemperature * PhysicsConstants.BOLTZMANN_CONSTANT /
    (1.0e3 * PhysicsConstants.ELEMENTARY_CHARGE)
  if T_keV < 1e-6 then 1e-6 else T_keV

/-- The approximate reactivity `1e-6·sqrt(T_keV)` (with the floored
temperature, hence always at least `1e-6·sqrt(1e-6)`). -/
def reactivityVal (P : Params) : ℝ :=
  1e-6 * Real.sqrt (tKeVFloored P)

/-- The unclamped expected fusion count
`reactivity · nD · nT · volume · dt · fusionBoost` with the species
densities `nD = ND/volume`, `nT = NT/volume`. -/
def rawExpectedFusions (P : Params) (geo : TokamakGeometry) (ND NT : ℕ)
    (dt : ℝ) : ℝ :=
  reactivityVal P * ((ND : ℝ) / torusVolumeFloored geo) *
    ((NT : ℝ) / torusVolumeFloored geo) * torusVolumeFloored geo * dt *
    P.fusionBoost

/-- The `expectedFusions` value computed by the fusion-sampling pass of
`updateParticles` (for `maxPairs > 0`): the raw rate clamped from above at
`maxPairs` and from below at `0`. -/
def expectedFusionsVal (P : Params) (geo : TokamakGeometry) (ND NT : ℕ)
    (dt : ℝ) : ℝ :=
  let maxPairs := min ND NT
  let expectedFusions := rawExpectedFusions P geo ND NT dt
  let expectedFusions := if expectedFusions > (maxPairs : ℝ) then (maxPairs : ℝ)
    else expectedFusions
  if expectedFusions < 0.0 then 0.0 else expectedFusions

/-- The per-step cap `maxThisStep = (int)(maxPairs · maxFusionFraction)`,
clamped into `[0, maxPairs]`.  (`⌊·⌋₊` is truncation toward zero followed
by the clamp at zero.) -/
def maxThisStepVal (P : Params) (maxPairs : ℕ) : ℕ :=
  min ⌊(maxPairs : ℝ) * P.maxFusionFractionPerStep⌋₊ maxPairs

/-- The integer fusion count sampled by `updateParticles`: floor of
`expectedFusions`, stochastically rounded up with probability equal to the
fractional remainder (uniform draw `u`), clamped at `maxPairs` and at
`maxThisStep`. -/
def numFusionsVal (P : Params) (geo : TokamakGeometry) (ND NT : ℕ)
    (dt : ℝ) (u : ℝ) : ℕ :=
  let maxPairs := min ND NT
  let expectedFusions := expectedFusionsVal P geo ND NT dt
  let numFusions := ⌊expectedFusions⌋₊
  let remainder := expectedFusions - (numFusions : ℝ)
  let numFusions := if u < remainder then numFusions + 1 else numFusions
  let numFusions := min numFusions maxPairs
  min numFusions (maxThisStepVal P maxPairs)

/-- State threaded through the fusion-reaction loop: the store, the
pending-creation buffer, and the generator. -/
structure FusionState where
  ps : List Particle
  newParticles : List Particle
  rng : Rng

/-- One iteration of the fusion-reaction loop: uniformly sample one index
from each species list, re-check the `active` flags, and invoke the forced
fusion attempt, writing the consumed reactants back and appending the
products to the pending buffer. -/
def fusionIter (P : Params) (dIdx tIdx : List ℕ) (scaledDt : ℝ)
    (st : FusionState) : FusionState :=
  let a := st.rng.uniformN dIdx.length
  let b := a.2.uniformN tIdx.length
  let id := dIdx.getD a.1 0
  let it := tIdx.getD b.1 0
  let p1 := st.ps.getD id default
  let p2 := st.ps.getD it default
  if p1.active = false ∨ p2.active = false then { st with rng := b.2 }
  else
    let out := attemptFusion P p1 p2 b.2 scaledDt true
    { ps := (st.ps.set id out.q1).set it out.q2
      newParticles := st.newParticles ++ out.created
      rng := out.rng }

/-- The fusion-sampling pass of `updateParticles`: when `maxPairs > 0`,
draw the stochastic-rounding uniform, compute the reaction count, and run
the reaction loop that many times. -/
def fusionPhase (P : Params) (geo : TokamakGeometry) (dIdx tIdx : List ℕ)
    (realDt scaledDt : ℝ) (ps : List Particle) (rng : Rng) : FusionState :=
  let ND := dIdx.length
  let NT := tIdx.length
  if 0 < min ND NT then
    let u := rng.uniformR 0.0 1.0
    let nf := numFusionsVal P geo ND NT realDt u.1
    (fusionIter P dIdx tIdx scaledDt)^[nf] ⟨ps, [], u.2⟩
  else ⟨ps, [], rng⟩

/-- `PlasmaPhysics::updateParticles`: per-particle sweep, fusion-sampling
pass over the Deuterium/Tritium index lists accumulated by the sweep, then
append the pending-creation buffer to the store. -/
def updateParticles (P : Params) (fld : MagneticField)
    (geo : TokamakGeometry) (ps : List Particle) (dt : ℝ)
    (rng : Rng) : List Particle × Rng :=
  let scaledDt := dt * P.timeScale
  let sw := sweepPhase P fld geo scaledDt dt ps rng
  let fz := fusionPhase P geo sw.dIdx sw.tIdx dt scaledDt sw.ps sw.rng
  (fz.ps ++ fz.newParticles, fz.rng)

/-- One particle of the Monte-Carlo seeding distribution (§ seeding /
fuel injection): toroidal and poloidal angles uniform on `[0, 2π)`, minor
radius `sqrt(u)·minorR·frac` (area-uniform disk), Maxwellian velocity
components.  `frac` is `0.85` for thermal seeding and `0.7` for fuel
injection. -/
def genFuelParticle (P : Params) (geo : TokamakGeometry) (t : ParticleType)
    (mass frac : ℝ) (rng : Rng) : Particle × Rng :=
  let phiD := rng.uniformR 0.0 (2.0 * π)
  let thetaD := phiD.2.uniformR 0.0 (2.0 * π)
  let rD := thetaD.2.uniformR 0.0 1.0
  let phi := phiD.1
  let theta := thetaD.1
  let rFrac := Real.sqrt rD.1 * geo.torusMinorR * frac
  let x := (geo.torusMajorR + rFrac * Real.cos theta) * Real.cos phi
  let y := rFrac * Real.sin theta
  let z := (geo.torusMajorR + rFrac * Real.cos theta) * Real.sin phi
  let sigma := getThermalVelocity P mass * P.velocityScale
  let vxD := rD.2.normalR sigma
  let vyD := vxD.2.normalR sigma
  let vzD := vyD.2.normalR sigma
  (createParticle t x y vxD.1 vyD.1 z vzD.1, vzD.2)

/-- A run of `count` seeded particles of one species. -/
def genFuelList (P : Params) (geo : TokamakGeometry) (t : ParticleType)
    (mass frac : ℝ) : ℕ → Rng → List Particle × Rng
  | 0, rng => ([], rng)
  | count + 1, rng =>
    let h := genFuelParticle P geo t mass frac rng
    let rest := genFuelList P geo t mass frac count h.2
    (h.1 :: rest.1, rest.2)

/-- `PlasmaPhysics::createThermalPlasma`: `numDeuterium` Deuterium then
`numTritium` Tritium particles, confinement fraction `0.85`. -/
def createThermalPlasma (P : Params) (geo : TokamakGeometry)
    (numDeuterium numTritium : ℕ) (rng : Rng) : List Particle × Rng :=
  let ds := genFuelList P geo .DEUTERIUM PhysicsConstants.DEUTERIUM_MASS
    0.85 numDeuterium rng
  let ts := genFuelList P geo .TRITIUM PhysicsConstants.TRITIUM_MASS
    0.85 numTritium ds.2
  (ds.1 ++ ts.1, ts.2)

/-- `PlasmaPhysics::injectFuel`: append `numD` Deuterium then `numT`
Tritium particles to the store, confinement fraction `0.7`. -/
def injectFuel (P : Params) (geo : TokamakGeometry) (ps : List Particle)
    (numD numT : ℕ) (rng : Rng) : List Particle × Rng :=
  let ds := genFuelList P geo .DEUTERIUM PhysicsConstants.DEUTERIUM_MASS
    0.7 numD rng
  let ts := genFuelList P geo .TRITIUM PhysicsConstants.TRITIUM_MASS
    0.7 numT ds.2
  (ps ++ ds.1 ++ ts.1, ts.2)

/-- Whether the particle stored at index `i` of `ps` is active and of
species `t` (the membership test of the sweep's index-list accumulation). -/
def isActiveOf (ps : List Particle) (t : ParticleType) (i : ℕ) : Bool :=
  decide ((ps.getD i default).active = true ∧ (ps.getD i default).type = t)

/-- The indices of the particles of species `t` that are active in `ps`. -/
def activeIdx (ps : List Particle) (t : ParticleType) : List ℕ :=
  (List.range ps.length).filter (isActiveOf ps t)

/-- The species tag of the particle stored at index `k`. -/
def typeAt (ps : List Particle) (k : ℕ) : ParticleType :=
  (ps.getD k default).type

/-- The active flag of the particle stored at index `k`. -/
def activeAt (ps : List Particle) (k : ℕ) : Bool :=
  (ps.getD k default).active

/-- A concrete deterministic generator (both streams constantly zero). -/
def constRng : Rng := ⟨fun _ => 0, fun _ => 0, 0⟩

/-- The sweep-phase state produced inside `updateParticles`. -/
def sweepOf (P : Params) (fld : MagneticField) (geo : TokamakGeometry)
    (ps : List Particle) (dt : ℝ) (rng : Rng) : SweepState :=
  sweepPhase P fld geo (dt * P.timeScale) dt ps rng

/-- The fusion-phase state produced inside `updateParticles` (store after
reactions, pending-creation buffer, generator). -/
def fusionOf (P : Params) (fld : MagneticField) (geo : TokamakGeometry)
    (ps : List Particle) (dt : ℝ) (rng : Rng) : FusionState :=
  fusionPhase P geo (sweepOf P fld geo ps dt rng).dIdx
    (sweepOf P fld geo ps dt rng).tIdx dt (dt * P.timeScale)
    (sweepOf P fld geo ps dt rng).ps (sweepOf P fld geo ps dt rng).rng

/-- The velocity of a particle after the Lorentz-plus-mirror force
integration step of `applyMagneticForce3D` (before the confinement
aids). -/
def fieldKickVelocity (fld : MagneticField) (p : Particle)
    (scaledDt : ℝ) : ℝ × ℝ × ℝ :=
  let B := fld.getTotalField p.x p.y p.z
  let FL := calculateLorentzForce p.vx p.vy p.vz B.1 B.2.1 B.2.2 p.charge
  let FM := calculateMirrorForce3D p.x p.y p.z p.vx p.vy p.vz fld p.mass
  let forceScale : ℝ := 1e-6
  (p.vx + ((FL.1 + FM.1) * forceScale / p.mass) * scaledDt,
   p.vy + ((FL.2.1 + FM.2.1) * forceScale / p.mass) * scaledDt,
   p.vz + ((FL.2.2 + FM.2.2) * forceScale / p.mass) * scaledDt)

/-- The distance from a particle to its projection on the torus
centerline (the `dist` guard value of `applyMagneticForce3D`). -/
def centerlineDist (geo : TokamakGeometry) (p : Particle) : ℝ :=
  let c := geo.projectToCenterline p.x p.y p.z
  Real.sqrt ((p.x - c.1) * (p.x - c.1) + (p.y - c.2.1) * (p.y - c.2.1) +
    (p.z - c.2.2) * (p.z - c.2.2))

/-- The core-attraction ("restoring") velocity increment of
`applyMagneticForce3D`: magnitude `strength/(dist+0.01)`, directed from
the particle toward its centerline projection, times `scaledDt`. -/
def corePullIncrement (P : Params) (geo : TokamakGeometry) (p : Particle)
    (scaledDt : ℝ) : ℝ × ℝ × ℝ :=
  let c := geo.projectToCenterline p.x p.y p.z
  let dx := p.x - c.1
  let dy := p.y - c.2.1
  let dz := p.z - c.2.2
  let dist := Real.sqrt (dx * dx + dy * dy + dz * dz)
  let pull := P.coreAttractionStrength / (dist + 0.01)
  ((-pull * dx) * scaledDt, (-pull * dy) * scaledDt, (-pull * dz) * scaledDt)

/-- The distance of a particle from the toroidal symmetry axis (the `R`
guard value of `applyMagneticForce3D`). -/
def axisDist (p : Particle) : ℝ :=
  Real.sqrt (p.x * p.x + p.z * p.z)

/-- The constant-magnitude azimuthal toroidal-drift velocity increment of
`applyMagneticForce3D` (applied to `vx` and `vz` only). -/
def driftIncrement (P : Params) (p : Particle) (scaledDt : ℝ) : ℝ × ℝ × ℝ :=
  let R := Real.sqrt (p.x * p.x + p.z * p.z)
  (P.driftOmega * (-p.z / R) * scaledDt, 0,
   P.driftOmega * (p.x / R) * scaledDt)

end

/-! ## Basic facts about the species table -/

section Lemmas

open Real PhysicsConstants

lemma createParticle_type (t : ParticleType) (x y vx vy z vz : ℝ) :
    (createParticle t x y vx vy z vz).type = t := by
  cases t <;> rfl

lemma createParticle_active (t : ParticleType) (x y vx vy z vz : ℝ) :
    (createParticle t x y vx vy z vz).active = true := by
  cases t <;> rfl

lemma createParticle_x (t : ParticleType) (x y vx vy z vz : ℝ) :
    (createParticle t x y vx vy z vz).x = x := by
  cases t <;> rfl

lemma createParticle_y (t : ParticleType) (x y vx vy z vz : ℝ) :
    (createParticle t x y vx vy z vz).y = y := by
  cases t <;> rfl

lemma createParticle_z (t : ParticleType) (x y vx vy z vz : ℝ) :
    (createParticle t x y vx vy z vz).z = z := by
  cases t <;> rfl

/-- Claim C3: for every pair of particles with positive masses,
`attemptFusion` called with `force = true` returns `true` and appends
exactly two new particles — one active Helium-4 and one active Neutron,
both created at the mass-weighted center-of-mass position — to the
pending buffer, and sets both reactants' active flags to `false` (net
change in active count per reaction is zero), regardless of
center-of-mass energy, separation distance, or any probability draw. -/
theorem C3_forced_fusion_products (P : Params) (p1 p2 : Particle)
    (rng : Rng) (dt : ℝ) (hm1 : 0 < p1.mass) (hm2 : 0 < p2.mass) :
    (attemptFusion P p1 p2 rng dt true).ok = true ∧
    (attemptFusion P p1 p2 rng dt true).q1 = { p1 with active := false } ∧
    (attemptFusion P p1 p2 rng dt true).q2 = { p2 with active := false } ∧
    ∃ he ne, (attemptFusion P p1 p2 rng dt true).created = [he, ne] ∧
      he.type = .HELIUM ∧ he.active = true ∧
      he.x = (p1.mass * p1.x + p2.mass * p2.x) / (p1.mass + p2.mass) ∧
      he.y = (p1.mass * p1.y + p2.mass * p2.y) / (p1.mass + p2.mass) ∧
      he.z = (p1.mass * p1.z + p2.mass * p2.z) / (p1.mass + p2.mass) ∧
      ne.type = .NEUTRON ∧ ne.active = true ∧
      ne.x = (p1.mass * p1.x + p2.mass * p2.x) / (p1.mass + p2.mass) ∧
      ne.y = (p1.mass * p1.y + p2.mass * p2.y) / (p1.mass + p2.mass) ∧
      ne.z = (p1.mass * p1.z + p2.mass * p2.z) / (p1.mass + p2.mass) := by
  simp only [attemptFusion]
  norm_num
  exact ⟨_, _, ⟨rfl, rfl⟩, createParticle_type _ _ _ _ _ _ _,
    createParticle_active _ _ _ _ _ _ _,
    createParticle_x _ _ _ _ _ _ _, createParticle_y _ _ _ _ _ _ _,
    createParticle_z _ _ _ _ _ _ _, createParticle_type _ _ _ _ _ _ _,
    createParticle_active _ _ _ _ _ _ _, createParticle_x _ _ _ _ _ _ _,
    createParticle_y _ _ _ _ _ _ _, createParticle_z _ _ _ _ _ _ _⟩

/-- Witness for C3: a concrete Deuterium/Tritium pair satisfies the mass
hypotheses, and the forced fusion succeeds on it. -/
theorem C3_forced_fusion_products_witness :
    0 < (createParticle .DEUTERIUM 0 0 0 0 0 0).mass ∧
    0 < (createParticle .TRITIUM 0.01 0 0 0 0 0).mass ∧
    (attemptFusion defParams (createParticle .DEUTERIUM 0 0 0 0 0 0)
      (createParticle .TRITIUM 0.01 0 0 0 0 0) constRng 1 true).ok = true :=
  ⟨by norm_num [createParticle, PhysicsConstants.DEUTERIUM_MASS],
   by norm_num [createParticle, PhysicsConstants.TRITIUM_MASS],
   (C3_forced_fusion_products defParams _ _ constRng 1
      (by norm_num [createParticle, PhysicsConstants.DEUTERIUM_MASS])
      (by norm_num [createParticle, PhysicsConstants.TRITIUM_MASS])).1⟩

/-- Claim C7: for every pair of particles whose separation exceeds the
fusion interaction distance `0.03`, a non-forced `attemptFusion` returns
`false` and changes nothing: both reactants keep their position, velocity
and active flag exactly, and no particle is appended to the pending
buffer (the generator is not advanced either). -/
theorem C7_distant_fusion_noop (P : Params) (p1 p2 : Particle) (rng : Rng)
    (dt : ℝ) (h : pairDistance p1 p2 > 0.03) :
    attemptFusion P p1 p2 rng dt false = ⟨false, p1, p2, [], rng⟩ := by
  simp only [attemptFusion]
  split_ifs with h1 h2 <;> first | rfl | exact absurd ⟨trivial, h⟩ h2

/-- Witness for C7: two concrete particles at unit separation exceed the
interaction distance and the non-forced attempt is a no-op on them. -/
theorem C7_distant_fusion_noop_witness :
    pairDistance (createParticle .DEUTERIUM 0 0 0 0 0 0)
      (createParticle .TRITIUM 1 0 0 0 0 0) > 0.03 ∧
    attemptFusion defParams (createParticle .DEUTERIUM 0 0 0 0 0 0)
      (createParticle .TRITIUM 1 0 0 0 0 0) constRng 1 false =
      ⟨false, createParticle .DEUTERIUM 0 0 0 0 0 0,
        createParticle .TRITIUM 1 0 0 0 0 0, [], constRng⟩ := by
  have hd : pairDistance (createParticle .DEUTERIUM 0 0 0 0 0 0)
      (createParticle .TRITIUM 1 0 0 0 0 0) > 0.03 := by
    have h1 : (createParticle .TRITIUM 1 0 0 0 0 0).x -
        (createParticle .DEUTERIUM 0 0 0 0 0 0).x = 1 := by
      rw [createParticle_x, createParticle_x]; norm_num
    simp only [pairDistance, createParticle_x, createParticle_y,
      createParticle_z]
    norm_num
  exact ⟨hd, C7_distant_fusion_noop defParams _ _ constRng 1 hd⟩

/-! ## The fusion-sampling quantities -/

lemma floorAt_pos (x c : ℝ) (hc : 0 < c) : 0 < if x < c then c else x := by
  split_ifs with h
  · exact hc
  · linarith [not_lt.mp h]

lemma torusVolumeFloored_pos (geo : TokamakGeometry) :
    0 < torusVolumeFloored geo :=
  floorAt_pos _ _ (by norm_num)

lemma tKeVFloored_pos (P : Params) : 0 < tKeVFloored P :=
  floorAt_pos _ _ (by norm_num)

lemma reactivityVal_pos (P : Params) : 0 < reactivityVal P := by
  have h := Real.sqrt_pos.mpr (tKeVFloored_pos P)
  unfold reactivityVal
  positivity

lemma rawExpectedFusions_pos (P : Params) (geo : TokamakGeometry)
    (ND NT : ℕ) (dt : ℝ) (hND : 1 ≤ ND) (hNT : 1 ≤ NT) (hdt : 0 < dt)
    (hb : 0 < P.fusionBoost) :
    0 < rawExpectedFusions P geo ND NT dt := by
  have h1 := torusVolumeFloored_pos geo
  have h2 := reactivityVal_pos P
  have h3 : (0 : ℝ) < (ND : ℝ) := by exact_mod_cast hND
  have h4 : (0 : ℝ) < (NT : ℝ) := by exact_mod_cast hNT
  unfold rawExpectedFusions
  positivity

lemma expectedFusionsVal_pos (P : Params) (geo : TokamakGeometry)
    (ND NT : ℕ) (dt : ℝ) (hND : 1 ≤ ND) (hNT : 1 ≤ NT) (hdt : 0 < dt)
    (hb : 0 < P.fusionBoost) :
    0 < expectedFusionsVal P geo ND NT dt := by
  have h1 := rawExpectedFusions_pos P geo ND NT dt hND hNT hdt hb
  have h2 : (0 : ℝ) < ((min ND NT : ℕ) : ℝ) := by
    have : 1 ≤ min ND NT := le_min hND hNT
    exact_mod_cast this
  simp only [expectedFusionsVal]
  split_ifs with hA hB hC <;> linarith

/-- Claim C1 (amended): `expectedFusions` is clamped into `[0, maxPairs]`
(not into `[0, maxPairs·maxFusionFractionPerStep]`); it is the integer
fusion count that is additionally capped at
`⌊maxPairs·maxFusionFractionPerStep⌋`. -/
theorem C1_expectedFusions_range (P : Params) (geo : TokamakGeometry)
    (ND NT : ℕ) (dt : ℝ) :
    0 ≤ expectedFusionsVal P geo ND NT dt ∧
    expectedFusionsVal P geo ND NT dt ≤ ((min ND NT : ℕ) : ℝ) ∧
    ∀ u : ℝ, numFusionsVal P geo ND NT dt u ≤
      ⌊((min ND NT : ℕ) : ℝ) * P.maxFusionFractionPerStep⌋₊ := by
  refine ⟨?_, ?_, ?_⟩
  · have h2 : (0 : ℝ) ≤ ((min ND NT : ℕ) : ℝ) := Nat.cast_nonneg _
    simp only [expectedFusionsVal]
    split_ifs <;> push_neg at * <;> linarith
  · have h2 : (0 : ℝ) ≤ ((min ND NT : ℕ) : ℝ) := Nat.cast_nonneg _
    simp only [expectedFusionsVal]
    split_ifs <;> linarith
  · intro u
    simp only [numFusionsVal, maxThisStepVal]
    exact le_trans (Nat.min_le_right _ _) (Nat.min_le_left _ _)

lemma sqrt_eq_of_sq (a b : ℝ) (hb : 0 ≤ b) (h : b ^ 2 = a) :
    Real.sqrt a = b := by
  rw [← h, Real.sqrt_sq hb]

lemma torusVolume_default_bounds :
    3.4 < torusVolume defGeometry ∧ torusVolume defGeometry < 4 := by
  have h1 : (3 : ℝ) < π := Real.pi_gt_three
  have h2 : π < 3.15 := Real.pi_lt_d2
  unfold torusVolume defGeometry
  constructor <;> nlinarith

lemma torusVolumeFloored_default :
    torusVolumeFloored defGeometry = torusVolume defGeometry := by
  have h := torusVolume_default_bounds
  unfold torusVolumeFloored
  rw [if_neg (by linarith [h.1])]

/-- Counterexample to claim C1 as stated: with temperature `0`, a large
`fusionBoost`, `ND = NT = 100` and `dt = 1`, the computed
`expectedFusions` equals `maxPairs = 100`, which exceeds
`maxPairs · maxFusionFractionPerStep = 2`: the value is clamped to
`[0, maxPairs]`, not to `[0, maxPairs · maxFusionFractionPerStep]`. -/
theorem C1_counterexample :
    expectedFusionsVal
        { defParams with plasmaTemperature := 0, fusionBoost := 1e30 }
        defGeometry 100 100 1 = 100 ∧
    ¬(expectedFusionsVal
        { defParams with plasmaTemperature := 0, fusionBoost := 1e30 }
        defGeometry 100 100 1 ≤
      ((min 100 100 : ℕ) : ℝ) * defParams.maxFusionFractionPerStep) := by
  have hvb := torusVolume_default_bounds
  have hvf := torusVolumeFloored_default
  have hv : 0 < torusVolumeFloored defGeometry := torusVolumeFloored_pos _
  have hTk : tKeVFloored
      { defParams with plasmaTemperature := 0, fusionBoost := 1e30 } = 1e-6 := by
    unfold tKeVFloored
    rw [if_pos]
    norm_num [defParams, PhysicsConstants.BOLTZMANN_CONSTANT,
      PhysicsConstants.ELEMENTARY_CHARGE]
  have hre : reactivityVal
      { defParams with plasmaTemperature := 0, fusionBoost := 1e30 } = 1e-9 := by
    unfold reactivityVal
    rw [hTk, sqrt_eq_of_sq (1e-6) (1e-3) (by norm_num) (by norm_num)]
    norm_num
  have hraw : rawExpectedFusions
      { defParams with plasmaTemperature := 0, fusionBoost := 1e30 }
      defGeometry 100 100 1 = 1e25 / torusVolumeFloored defGeometry := by
    unfold rawExpectedFusions
    rw [hre]
    have hne : torusVolumeFloored defGeometry ≠ 0 := ne_of_gt hv
    field_simp
    ring
  have hbig : rawExpectedFusions
      { defParams with plasmaTemperature := 0, fusionBoost := 1e30 }
      defGeometry 100 100 1 > ((min 100 100 : ℕ) : ℝ) := by
    rw [hraw]
    have : ((min 100 100 : ℕ) : ℝ) = 100 := by norm_num
    rw [this, gt_iff_lt, lt_div_iff₀ hv]
    rw [hvf]
    nlinarith [hvb.2]
  have hval : expectedFusionsVal
      { defParams with plasmaTemperature := 0, fusionBoost := 1e30 }
      defGeometry 100 100 1 = 100 := by
    simp only [expectedFusionsVal]
    rw [if_pos hbig, if_neg (by norm_num : ¬((min 100 100 : ℕ) : ℝ) < 0.0)]
    norm_num
  refine ⟨hval, ?_⟩
  rw [hval]
  norm_num [defParams]

lemma tKeVFloored_of_small (P : Params) (h0 : 0 ≤ P.plasmaTemperature)
    (h : P.plasmaTemperature ≤ 11) : tKeVFloored P = 1e-6 := by
  unfold tKeVFloored
  rw [if_pos]
  rw [div_lt_iff₀
    (by norm_num [PhysicsConstants.ELEMENTARY_CHARGE] :
      (0 : ℝ) < 1.0e3 * PhysicsConstants.ELEMENTARY_CHARGE)]
  rw [PhysicsConstants.BOLTZMANN_CONSTANT, PhysicsConstants.ELEMENTARY_CHARGE]
  nlinarith

/-- Claim C5 (amended): the reactivity is floored at `1e-6·sqrt(1e-6)`, so
for `0 ≤ T ≤ 11` (kelvin) the expected fusion count is constant, equal to
its value at `T = 0`, and that value is strictly positive whenever
`ND, NT ≥ 1`, `dt > 0` and `fusionBoost > 0` — it does not tend to `0`
and is nonzero at `T = 0`. -/
theorem C5_low_temperature_floor (P : Params) (geo : TokamakGeometry)
    (ND NT : ℕ) (dt T : ℝ) (hND : 1 ≤ ND) (hNT : 1 ≤ NT) (hdt : 0 < dt)
    (hb : 0 < P.fusionBoost) (hT0 : 0 ≤ T) (hT1 : T ≤ 11) :
    expectedFusionsVal { P with plasmaTemperature := T } geo ND NT dt =
      expectedFusionsVal { P with plasmaTemperature := 0 } geo ND NT dt ∧
    0 < expectedFusionsVal { P with plasmaTemperature := 0 } geo ND NT dt := by
  constructor
  · unfold expectedFusionsVal rawExpectedFusions reactivityVal
    rw [tKeVFloored_of_small { P with plasmaTemperature := T } hT0 hT1,
      tKeVFloored_of_small { P with plasmaTemperature := 0 } le_rfl
        (by norm_num)]
  · exact expectedFusionsVal_pos _ geo ND NT dt hND hNT hdt hb

/-- Witness for C5: at the default parameters with temperature `5` kelvin,
a one-Deuterium/one-Tritium population and unit time step, the expected
fusion count equals its (strictly positive) value at temperature `0`. -/
theorem C5_low_temperature_floor_witness :
    (0 : ℝ) ≤ 5 ∧ (5 : ℝ) ≤ 11 ∧
    0 < expectedFusionsVal { defParams with plasmaTemperature := 0 }
      defGeometry 1 1 1 ∧
    expectedFusionsVal { defParams with plasmaTemperature := 5 }
        defGeometry 1 1 1 =
      expectedFusionsVal { defParams with plasmaTemperature := 0 }
        defGeometry 1 1 1 := by
  have h := C5_low_temperature_floor defParams defGeometry 1 1 1 5 le_rfl
    le_rfl one_pos (by norm_num [defParams]) (by norm_num) (by norm_num)
  exact ⟨by norm_num, by norm_num, h.2, h.1⟩

/-- Counterexample to claim C5 as stated: at temperature exactly `0` (with
`ND = NT = 1`, `dt = 1` and the default parameters) the expected fusion
count is not `0` — the reactivity floor keeps it strictly positive. -/
theorem C5_counterexample :
    expectedFusionsVal { defParams with plasmaTemperature := 0 }
      defGeometry 1 1 1 ≠ 0 :=
  ne_of_gt (expectedFusionsVal_pos _ _ 1 1 1 le_rfl le_rfl one_pos
    (by norm_num [defParams]))

/-- Claim C10: whenever `maxPairs · maxFusionFractionPerStep < 1`, the
per-step cap truncates to `0`, so the sampled fusion count is `0` and the
fusion-sampling pass performs no reaction: the store is unchanged and the
pending buffer stays empty, regardless of temperature, `fusionBoost` or
the stochastic-rounding draw. -/
theorem C10_small_population_no_fusion (P : Params) (geo : TokamakGeometry)
    (dIdx tIdx : List ℕ) (realDt scaledDt : ℝ) (ps : List Particle)
    (rng : Rng)
    (h : ((min dIdx.length tIdx.length : ℕ) : ℝ) *
      P.maxFusionFractionPerStep < 1) :
    (∀ dt u : ℝ, numFusionsVal P geo dIdx.length tIdx.length dt u = 0) ∧
    (fusionPhase P geo dIdx tIdx realDt scaledDt ps rng).ps = ps ∧
    (fusionPhase P geo dIdx tIdx realDt scaledDt ps rng).newParticles = [] := by
  have hmax : maxThisStepVal P (min dIdx.length tIdx.length) = 0 := by
    unfold maxThisStepVal
    rw [Nat.floor_eq_zero.mpr h]
    exact Nat.zero_min _
  have hnum : ∀ dt u : ℝ,
      numFusionsVal P geo dIdx.length tIdx.length dt u = 0 := by
    intro dt u
    simp only [numFusionsVal]
    rw [hmax, Nat.min_zero]
  refine ⟨hnum, ?_⟩
  simp only [fusionPhase]
  split_ifs with hmp
  · rw [hnum realDt _]
    exact ⟨rfl, rfl⟩
  · exact ⟨rfl, rfl⟩

/-- Witness for C10: one Deuterium and one Tritium index at the default
fusion fraction `0.02` satisfy the cap hypothesis, and the sampling pass
creates nothing. -/
theorem C10_small_population_no_fusion_witness :
    ((min ([0] : List ℕ).length ([1] : List ℕ).length : ℕ) : ℝ) *
      defParams.maxFusionFractionPerStep < 1 ∧
    (fusionPhase defParams defGeometry [0] [1] 1 0.01 []
      constRng).newParticles = [] := by
  have h : ((min ([0] : List ℕ).length ([1] : List ℕ).length : ℕ) : ℝ) *
      defParams.maxFusionFractionPerStep < 1 := by
    norm_num [defParams]
  exact ⟨h, (C10_small_population_no_fusion defParams defGeometry [0] [1]
    1 0.01 [] constRng h).2.2⟩

/-! ## The integration step -/

/-- Counterexample to claim C4 as stated: an active Neutron (charge `0`)
at `(1.2, 0, 0)` is returned entirely unchanged by
`applyMagneticForce3D` — the early return for `|charge| < 1e-30` skips
the core-attraction and toroidal-drift increments as well — although the
drift increment the claim promises is the nonzero `2.5` on `vz` there. -/
theorem C4_counterexample :
    applyMagneticForce3D defParams (mkMagneticField 1.2 0.4 8) defGeometry
        (createParticle .NEUTRON 1.2 0 0 0 0 0) 1 1 =
      createParticle .NEUTRON 1.2 0 0 0 0 0 ∧
    (driftIncrement defParams (createParticle .NEUTRON 1.2 0 0 0 0 0)
      1).2.2 ≠ 0 := by
  constructor
  · have hch : (createParticle .NEUTRON 1.2 0 0 0 0 0).charge = 0 := by
      norm_num [createParticle]
    unfold applyMagneticForce3D
    rw [if_pos (by rw [hch]; norm_num)]
  · unfold driftIncrement
    rw [createParticle_x, createParticle_z]
    rw [sqrt_eq_of_sq (1.2 * 1.2 + 0 * 0) 1.2 (by norm_num) (by norm_num)]
    norm_num [defParams]

/-- Claim C4 (amended): in each integration step, every active particle
whose charge magnitude is at least `1e-30` and which sits at a
nondegenerate position (positive distance to the centerline projection,
positive distance to the torus axis) receives both the restoring
core-attraction velocity increment and the azimuthal toroidal-drift
velocity increment on top of the Lorentz/mirror kick; electrically
neutral species such as Neutron are skipped entirely by the early charge
return and receive neither. -/
theorem C4_charged_increments (P : Params) (fld : MagneticField)
    (geo : TokamakGeometry) (p : Particle) (scaledDt realDt : ℝ)
    (hc : ¬ |p.charge| < 1e-30) (hd : centerlineDist geo p > 1e-8)
    (hR : axisDist p > 1e-6) :
    (applyMagneticForce3D P fld geo p scaledDt realDt).x = p.x ∧
    (applyMagneticForce3D P fld geo p scaledDt realDt).y = p.y ∧
    (applyMagneticForce3D P fld geo p scaledDt realDt).z = p.z ∧
    (applyMagneticForce3D P fld geo p scaledDt realDt).type = p.type ∧
    (applyMagneticForce3D P fld geo p scaledDt realDt).active = p.active ∧
    (applyMagneticForce3D P fld geo p scaledDt realDt).vx =
      (fieldKickVelocity fld p scaledDt).1 +
      (corePullIncrement P geo p scaledDt).1 +
      (driftIncrement P p scaledDt).1 ∧
    (applyMagneticForce3D P fld geo p scaledDt realDt).vy =
      (fieldKickVelocity fld p scaledDt).2.1 +
      (corePullIncrement P geo p scaledDt).2.1 +
      (driftIncrement P p scaledDt).2.1 ∧
    (applyMagneticForce3D P fld geo p scaledDt realDt).vz =
      (fieldKickVelocity fld p scaledDt).2.2 +
      (corePullIncrement P geo p scaledDt).2.2 +
      (driftIncrement P p scaledDt).2.2 := by
  simp only [applyMagneticForce3D, fieldKickVelocity, corePullIncrement,
    driftIncrement, centerlineDist, axisDist] at hd hR ⊢
  rw [if_neg hc]
  simp only [if_pos hd, if_pos hR]
  exact ⟨trivial, trivial, trivial, trivial, trivial, trivial, by ring, trivial⟩

/-- Witness for C4: a concrete active Deuterium particle at
`(1.2, 0.1, 0)` is charged and nondegenerate, and its post-step `vz`
decomposes into the field kick plus the core-attraction and drift
increments. -/
theorem C4_charged_increments_witness :
    ¬ |(createParticle .DEUTERIUM 1.2 0.1 0 0 0 0).charge| < 1e-30 ∧
    centerlineDist defGeometry (createParticle .DEUTERIUM 1.2 0.1 0 0 0 0) >
      1e-8 ∧
    axisDist (createParticle .DEUTERIUM 1.2 0.1 0 0 0 0) > 1e-6 ∧
    (applyMagneticForce3D defParams (mkMagneticField 1.2 0.4 8) defGeometry
        (createParticle .DEUTERIUM 1.2 0.1 0 0 0 0) 0.01 1).vz =
      (fieldKickVelocity (mkMagneticField 1.2 0.4 8)
        (createParticle .DEUTERIUM 1.2 0.1 0 0 0 0) 0.01).2.2 +
      (corePullIncrement defParams defGeometry
        (createParticle .DEUTERIUM 1.2 0.1 0 0 0 0) 0.01).2.2 +
      (driftIncrement defParams
        (createParticle .DEUTERIUM 1.2 0.1 0 0 0 0) 0.01).2.2 := by
  have hch : (createParticle .DEUTERIUM 1.2 0.1 0 0 0 0).charge =
      1.602e-19 := by
    norm_num [createParticle, PhysicsConstants.ELEMENTARY_CHARGE]
  have hc : ¬ |(createParticle .DEUTERIUM 1.2 0.1 0 0 0 0).charge| <
      1e-30 := by
    rw [hch, abs_of_pos (by norm_num)]
    norm_num
  have hd : centerlineDist defGeometry
      (createParticle .DEUTERIUM 1.2 0.1 0 0 0 0) > 1e-8 := by
    unfold centerlineDist TokamakGeometry.projectToCenterline
    rw [createParticle_x, createParticle_y, createParticle_z]
    rw [sqrt_eq_of_sq (1.2 * 1.2 + 0 * 0) 1.2 (by norm_num) (by norm_num)]
    rw [if_neg (by norm_num [defGeometry])]
    rw [gt_iff_lt, Real.lt_sqrt (by norm_num)]
    norm_num [defGeometry]
  have hR : axisDist (createParticle .DEUTERIUM 1.2 0.1 0 0 0 0) > 1e-6 := by
    unfold axisDist
    rw [createParticle_x, createParticle_z]
    rw [gt_iff_lt, Real.lt_sqrt (by norm_num)]
    norm_num
  exact ⟨hc, hd, hR, (C4_charged_increments defParams
    (mkMagneticField 1.2 0.4 8) defGeometry
    (createParticle .DEUTERIUM 1.2 0.1 0 0 0 0) 0.01 1 hc hd
    hR).2.2.2.2.2.2.2⟩

/-! ## Seeding and fuel injection -/

lemma uniformR01_bounds (rg : Rng) :
    0 ≤ (rg.uniformR 0.0 1.0).1 ∧ (rg.uniformR 0.0 1.0).1 ≤ 1 := by
  unfold Rng.uniformR clampUnit
  constructor
  · have h : (0 : ℝ) ≤ max 0 (min 1 (rg.u rg.k)) := le_max_left 0 _
    nlinarith
  · have h : max 0 (min 1 (rg.u rg.k)) ≤ 1 :=
      max_le (by norm_num) (min_le_left 1 _)
    nlinarith

lemma seeded_sdf_lt (geo : TokamakGeometry) (phi theta u frac : ℝ)
    (hr : 0 < geo.torusMinorR)
    (hR : 0.85 * geo.torusMinorR ≤ geo.torusMajorR)
    (hf0 : 0 ≤ frac) (hf1 : frac ≤ 0.85) (hu0 : 0 ≤ u) (hu1 : u ≤ 1) :
    geo.torusSDF
      ((geo.torusMajorR + Real.sqrt u * geo.torusMinorR * frac *
          Real.cos theta) * Real.cos phi)
      (Real.sqrt u * geo.torusMinorR * frac * Real.sin theta)
      ((geo.torusMajorR + Real.sqrt u * geo.torusMinorR * frac *
          Real.cos theta) * Real.sin phi) < 0 := by
  have hsu0 : 0 ≤ Real.sqrt u := Real.sqrt_nonneg u
  have hsu1 : Real.sqrt u ≤ 1 := Real.sqrt_le_one.mpr hu1
  set rc := Real.sqrt u * geo.torusMinorR * frac with hrc
  have h0 : 0 ≤ rc := by positivity
  have h085 : rc ≤ 0.85 * geo.torusMinorR := by
    rw [hrc]
    calc Real.sqrt u * geo.torusMinorR * frac ≤ 1 * geo.torusMinorR * 0.85 :=
          mul_le_mul (mul_le_mul hsu1 le_rfl hr.le zero_le_one) hf1 hf0
            (by positivity)
      _ = 0.85 * geo.torusMinorR := by ring
  have hcos1 := Real.neg_one_le_cos theta
  have hcos2 := Real.cos_le_one theta
  have hbase : 0 ≤ geo.torusMajorR + rc * Real.cos theta := by nlinarith
  simp only [TokamakGeometry.torusSDF]
  have hxz : ((geo.torusMajorR + rc * Real.cos theta) * Real.cos phi) *
      ((geo.torusMajorR + rc * Real.cos theta) * Real.cos phi) +
      ((geo.torusMajorR + rc * Real.cos theta) * Real.sin phi) *
      ((geo.torusMajorR + rc * Real.cos theta) * Real.sin phi) =
      (geo.torusMajorR + rc * Real.cos theta) ^ 2 := by
    have hpy := Real.sin_sq_add_cos_sq phi
    linear_combination (geo.torusMajorR + rc * Real.cos theta) ^ 2 * hpy
  rw [hxz, Real.sqrt_sq hbase]
  have h3 : (geo.torusMajorR + rc * Real.cos theta - geo.torusMajorR) *
      (geo.torusMajorR + rc * Real.cos theta - geo.torusMajorR) +
      (rc * Real.sin theta) * (rc * Real.sin theta) = rc ^ 2 := by
    have hpy := Real.sin_sq_add_cos_sq theta
    linear_combination rc ^ 2 * hpy
  rw [h3, Real.sqrt_sq h0]
  nlinarith

lemma genFuelParticle_inside (P : Params) (geo : TokamakGeometry)
    (t : ParticleType) (mass frac : ℝ) (rng : Rng)
    (hr : 0 < geo.torusMinorR)
    (hR : 0.85 * geo.torusMinorR ≤ geo.torusMajorR)
    (hf0 : 0 ≤ frac) (hf1 : frac ≤ 0.85) :
    (genFuelParticle P geo t mass frac rng).1.type = t ∧
    (genFuelParticle P geo t mass frac rng).1.active = true ∧
    geo.torusSDF (genFuelParticle P geo t mass frac rng).1.x
      (genFuelParticle P geo t mass frac rng).1.y
      (genFuelParticle P geo t mass frac rng).1.z < 0 := by
  obtain ⟨hu0, hu1⟩ := uniformR01_bounds
    ((rng.uniformR 0.0 (2.0 * π)).2.uniformR 0.0 (2.0 * π)).2
  simp only [genFuelParticle]
  rw [createParticle_type, createParticle_active, createParticle_x,
    createParticle_y, createParticle_z]
  exact ⟨rfl, rfl, seeded_sdf_lt geo _ _ _ frac hr hR hf0 hf1 hu0 hu1⟩

lemma genFuelList_spec (P : Params) (geo : TokamakGeometry)
    (t : ParticleType) (mass frac : ℝ) (hr : 0 < geo.torusMinorR)
    (hR : 0.85 * geo.torusMinorR ≤ geo.torusMajorR)
    (hf0 : 0 ≤ frac) (hf1 : frac ≤ 0.85) :
    ∀ (count : ℕ) (rng : Rng),
      (genFuelList P geo t mass frac count rng).1.length = count ∧
      ∀ q ∈ (genFuelList P geo t mass frac count rng).1,
        q.type = t ∧ q.active = true ∧ geo.torusSDF q.x q.y q.z < 0 := by
  intro count
  induction count with
  | zero =>
      intro rng
      simp [genFuelList]
  | succ n ih =>
      intro rng
      simp only [genFuelList]
      constructor
      · simp [(ih _).1]
      · intro q hq
        rcases List.mem_cons.mp hq with h | h
        · subst h
          exact genFuelParticle_inside P geo t mass frac rng hr hR hf0 hf1
        · exact (ih _).2 q h

/-- Claim C9: `createThermalPlasma(ND, NT)` returns exactly `ND + NT`
particles — `ND` active Deuterium followed by `NT` active Tritium — and
`injectFuel(N, M)` appends exactly `N` Deuterium and `M` Tritium active
particles without modifying pre-existing ones; every particle so created
has `signedDistance < 0` at creation (minor-radius offset at most
`0.85·minorRadius` for seeding, `0.7·minorRadius` for injection, hence
strictly inside the torus). -/
theorem C9_seeding_and_injection (P : Params) (geo : TokamakGeometry)
    (nD nT mD mT : ℕ) (rng rng2 : Rng) (ps : List Particle)
    (hr : 0 < geo.torusMinorR)
    (hR : 0.85 * geo.torusMinorR ≤ geo.torusMajorR) :
    (∃ ds ts,
      (createThermalPlasma P geo nD nT rng).1 = ds ++ ts ∧
      ds.length = nD ∧ ts.length = nT ∧
      (∀ q ∈ ds, q.type = .DEUTERIUM ∧ q.active = true ∧
        geo.torusSDF q.x q.y q.z < 0) ∧
      (∀ q ∈ ts, q.type = .TRITIUM ∧ q.active = true ∧
        geo.torusSDF q.x q.y q.z < 0)) ∧
    (∃ ds ts,
      (injectFuel P geo ps mD mT rng2).1 = ps ++ ds ++ ts ∧
      ds.length = mD ∧ ts.length = mT ∧
      (∀ q ∈ ds, q.type = .DEUTERIUM ∧ q.active = true ∧
        geo.torusSDF q.x q.y q.z < 0) ∧
      (∀ q ∈ ts, q.type = .TRITIUM ∧ q.active = true ∧
        geo.torusSDF q.x q.y q.z < 0)) := by
  constructor
  · refine ⟨_, _, rfl, ?_, ?_, ?_, ?_⟩
    · exact (genFuelList_spec P geo .DEUTERIUM
        PhysicsConstants.DEUTERIUM_MASS 0.85 hr hR (by norm_num)
        (by norm_num) nD rng).1
    · exact (genFuelList_spec P geo .TRITIUM
        PhysicsConstants.TRITIUM_MASS 0.85 hr hR (by norm_num)
        (by norm_num) nT _).1
    · exact (genFuelList_spec P geo .DEUTERIUM
        PhysicsConstants.DEUTERIUM_MASS 0.85 hr hR (by norm_num)
        (by norm_num) nD rng).2
    · exact (genFuelList_spec P geo .TRITIUM
        PhysicsConstants.TRITIUM_MASS 0.85 hr hR (by norm_num)
        (by norm_num) nT _).2
  · refine ⟨_, _, rfl, ?_, ?_, ?_, ?_⟩
    · exact (genFuelList_spec P geo .DEUTERIUM
        PhysicsConstants.DEUTERIUM_MASS 0.7 hr hR (by norm_num)
        (by norm_num) mD rng2).1
    · exact (genFuelList_spec P geo .TRITIUM
        PhysicsConstants.TRITIUM_MASS 0.7 hr hR (by norm_num)
        (by norm_num) mT _).1
    · exact (genFuelList_spec P geo .DEUTERIUM
        PhysicsConstants.DEUTERIUM_MASS 0.7 hr hR (by norm_num)
        (by norm_num) mD rng2).2
    · exact (genFuelList_spec P geo .TRITIUM
        PhysicsConstants.TRITIUM_MASS 0.7 hr hR (by norm_num)
        (by norm_num) mT _).2

/-- Witness for C9: the default geometry satisfies the radius hypotheses,
and seeding one Deuterium and two Tritium particles from a concrete
generator yields a one-Deuterium block followed by a two-Tritium block. -/
theorem C9_seeding_and_injection_witness :
    0 < defGeometry.torusMinorR ∧
    0.85 * defGeometry.torusMinorR ≤ defGeometry.torusMajorR ∧
    ∃ ds ts, (createThermalPlasma defParams defGeometry 1 2 constRng).1 =
      ds ++ ts ∧ ds.length = 1 ∧ ts.length = 2 := by
  have hr : 0 < defGeometry.torusMinorR := by norm_num [defGeometry]
  have hR : 0.85 * defGeometry.torusMinorR ≤ defGeometry.torusMajorR := by
    norm_num [defGeometry]
  obtain ⟨⟨ds, ts, h1, h2, h3,-, -⟩, -⟩ :=
    C9_seeding_and_injection defParams defGeometry 1 2 0 0 constRng constRng
      [] hr hR
  exact ⟨hr, hR, ds, ts, h1, h2, h3⟩

/-! ## Step ordering: preservation lemmas for the sweep -/

lemma getD_set_ne (l : List Particle) (i j : ℕ) (a : Particle)
    (h : i ≠ j) : (l.set i a).getD j default = l.getD j default := by
  simp [List.getD_eq_getElem?_getD, List.getElem?_set_ne h]

lemma getD_set_lt (l : List Particle) (i : ℕ) (a : Particle)
    (h : i < l.length) : (l.set i a).getD i default = a := by
  simp [List.getD_eq_getElem?_getD, List.getElem?_set_self, h]

lemma typeAt_set (l : List Particle) (i : ℕ) (a : Particle)
    (ht : a.type = typeAt l i) :
    ∀ j, typeAt (l.set i a) j = typeAt l j := by
  intro j
  by_cases hij : i = j
  · subst hij
    by_cases hlen : i < l.length
    · unfold typeAt
      rw [getD_set_lt l i a hlen]
      exact ht
    · unfold typeAt
      rw [List.set_eq_of_length_le (not_lt.mp hlen)]
  · unfold typeAt
    rw [getD_set_ne l i j a hij]

lemma activeAt_set (l : List Particle) (i : ℕ) (a : Particle)
    (ha : a.active = activeAt l i) :
    ∀ j, activeAt (l.set i a) j = activeAt l j := by
  intro j
  by_cases hij : i = j
  · subst hij
    by_cases hlen : i < l.length
    · unfold activeAt
      rw [getD_set_lt l i a hlen]
      exact ha
    · unfold activeAt
      rw [List.set_eq_of_length_le (not_lt.mp hlen)]
  · unfold activeAt
    rw [getD_set_ne l i j a hij]

lemma applyCoulombForce_fst_type (P : Params) (p1 p2 : Particle) (dt : ℝ) :
    (applyCoulombForce P p1 p2 dt).1.type = p1.type := rfl

lemma applyCoulombForce_fst_active (P : Params) (p1 p2 : Particle)
    (dt : ℝ) : (applyCoulombForce P p1 p2 dt).1.active = p1.active := rfl

lemma applyCoulombForce_snd_type (P : Params) (p1 p2 : Particle) (dt : ℝ) :
    (applyCoulombForce P p1 p2 dt).2.type = p2.type := rfl

lemma applyCoulombForce_snd_active (P : Params) (p1 p2 : Particle)
    (dt : ℝ) : (applyCoulombForce P p1 p2 dt).2.active = p2.active := rfl

lemma coulombStep_length (P : Params) (dt : ℝ) (i : ℕ)
    (ps : List Particle) (j : ℕ) :
    (coulombStep P dt i ps j).length = ps.length := by
  simp only [coulombStep]
  split_ifs with h
  · simp [List.length_set]
  · rfl

lemma coulombStep_typeAt (P : Params) (dt : ℝ) (i : ℕ) (ps : List Particle)
    (j : ℕ) : ∀ k, typeAt (coulombStep P dt i ps j) k = typeAt ps k := by
  intro k
  simp only [coulombStep]
  split_ifs with h
  · have h1 : ∀ m, typeAt (ps.set i (applyCoulombForce P
        (ps.getD i default) (ps.getD j default) dt).1) m = typeAt ps m :=
      typeAt_set ps i _ (applyCoulombForce_fst_type P _ _ dt)
    rw [typeAt_set _ j _ (by
      rw [applyCoulombForce_snd_type, h1 j]; rfl) k, h1 k]
  · rfl

lemma coulombStep_activeAt (P : Params) (dt : ℝ) (i : ℕ)
    (ps : List Particle) (j : ℕ) :
    ∀ k, activeAt (coulombStep P dt i ps j) k = activeAt ps k := by
  intro k
  simp only [coulombStep]
  split_ifs with h
  · have h1 : ∀ m, activeAt (ps.set i (applyCoulombForce P
        (ps.getD i default) (ps.getD j default) dt).1) m = activeAt ps m :=
      activeAt_set ps i _ (applyCoulombForce_fst_active P _ _ dt)
    rw [activeAt_set _ j _ (by
      rw [applyCoulombForce_snd_active, h1 j]; rfl) k, h1 k]
  · rfl

lemma foldl_coulombStep_length (P : Params) (dt : ℝ) (i : ℕ) :
    ∀ (js : List ℕ) (ps : List Particle),
      (js.foldl (coulombStep P dt i) ps).length = ps.length := by
  intro js
  induction js with
  | nil => intro ps; rfl
  | cons j js ih =>
      intro ps
      rw [List.foldl_cons, ih, coulombStep_length]

lemma foldl_coulombStep_typeAt (P : Params) (dt : ℝ) (i : ℕ) :
    ∀ (js : List ℕ) (ps : List Particle) (k : ℕ),
      typeAt (js.foldl (coulombStep P dt i) ps) k = typeAt ps k := by
  intro js
  induction js with
  | nil => intro ps k; rfl
  | cons j js ih =>
      intro ps k
      rw [List.foldl_cons, ih, coulombStep_typeAt]

lemma foldl_coulombStep_activeAt (P : Params) (dt : ℝ) (i : ℕ) :
    ∀ (js : List ℕ) (ps : List Particle) (k : ℕ),
      activeAt (js.foldl (coulombStep P dt i) ps) k = activeAt ps k := by
  intro js
  induction js with
  | nil => intro ps k; rfl
  | cons j js ih =>
      intro ps k
      rw [List.foldl_cons, ih, coulombStep_activeAt]

lemma coulombPass_length (P : Params) (dt : ℝ) (i : ℕ)
    (ps : List Particle) : (coulombPass P dt i ps).length = ps.length :=
  foldl_coulombStep_length P dt i _ ps

lemma coulombPass_typeAt (P : Params) (dt : ℝ) (i : ℕ) (ps : List Particle)
    (k : ℕ) : typeAt (coulombPass P dt i ps) k = typeAt ps k :=
  foldl_coulombStep_typeAt P dt i _ ps k

lemma coulombPass_activeAt (P : Params) (dt : ℝ) (i : ℕ)
    (ps : List Particle) (k : ℕ) :
    activeAt (coulombPass P dt i ps) k = activeAt ps k :=
  foldl_coulombStep_activeAt P dt i _ ps k

lemma typeAt_set_ne (l : List Particle) (i j : ℕ) (a : Particle)
    (h : i ≠ j) : typeAt (l.set i a) j = typeAt l j := by
  unfold typeAt
  rw [getD_set_ne l i j a h]

lemma activeAt_set_ne (l : List Particle) (i j : ℕ) (a : Particle)
    (h : i ≠ j) : activeAt (l.set i a) j = activeAt l j := by
  unfold activeAt
  rw [getD_set_ne l i j a h]

lemma sweepStep_length (P : Params) (fld : MagneticField)
    (geo : TokamakGeometry) (sdt rdt : ℝ) (st : SweepState) (i : ℕ) :
    (sweepStep P fld geo sdt rdt st i).ps.length = st.ps.length := by
  simp only [sweepStep]
  by_cases h1 : (st.ps.getD i default).active = false
  · rw [if_pos h1]
  · rw [if_neg h1]
    dsimp only
    rw [List.length_set]
    by_cases hec : P.enableCoulomb = true
    · rw [if_pos hec, coulombPass_length, List.length_set]
    · rw [if_neg hec, List.length_set]

lemma sweepStep_typeAt_ne (P : Params) (fld : MagneticField)
    (geo : TokamakGeometry) (sdt rdt : ℝ) (st : SweepState) (i j : ℕ)
    (hji : i ≠ j) :
    typeAt (sweepStep P fld geo sdt rdt st i).ps j = typeAt st.ps j := by
  simp only [sweepStep]
  by_cases h1 : (st.ps.getD i default).active = false
  · rw [if_pos h1]
  · rw [if_neg h1]
    dsimp only
    rw [typeAt_set_ne _ _ _ _ hji]
    by_cases hec : P.enableCoulomb = true
    · rw [if_pos hec, coulombPass_typeAt, typeAt_set_ne _ _ _ _ hji]
    · rw [if_neg hec, typeAt_set_ne _ _ _ _ hji]

lemma sweepStep_activeAt_ne (P : Params) (fld : MagneticField)
    (geo : TokamakGeometry) (sdt rdt : ℝ) (st : SweepState) (i j : ℕ)
    (hji : i ≠ j) :
    activeAt (sweepStep P fld geo sdt rdt st i).ps j = activeAt st.ps j := by
  simp only [sweepStep]
  by_cases h1 : (st.ps.getD i default).active = false
  · rw [if_pos h1]
  · rw [if_neg h1]
    dsimp only
    rw [activeAt_set_ne _ _ _ _ hji]
    by_cases hec : P.enableCoulomb = true
    · rw [if_pos hec, coulombPass_activeAt, activeAt_set_ne _ _ _ _ hji]
    · rw [if_neg hec, activeAt_set_ne _ _ _ _ hji]

lemma sweepStep_dIdx (P : Params) (fld : MagneticField)
    (geo : TokamakGeometry) (sdt rdt : ℝ) (st : SweepState) (i : ℕ) :
    (sweepStep P fld geo sdt rdt st i).dIdx =
      if activeAt st.ps i = true ∧ typeAt st.ps i = ParticleType.DEUTERIUM
      then st.dIdx ++ [i] else st.dIdx := by
  simp only [sweepStep, activeAt, typeAt]
  by_cases h1 : (st.ps.getD i default).active = false
  · rw [if_pos h1, if_neg (by rw [h1]; simp)]
  · rw [if_neg h1]
    dsimp only
    have hact : (st.ps.getD i default).active = true :=
      Bool.of_not_eq_false h1
    by_cases h2 : (st.ps.getD i default).type = ParticleType.DEUTERIUM
    · rw [if_pos h2, if_pos ⟨hact, h2⟩]
    · rw [if_neg h2, if_neg (fun hcon => h2 hcon.2)]

lemma sweepStep_tIdx (P : Params) (fld : MagneticField)
    (geo : TokamakGeometry) (sdt rdt : ℝ) (st : SweepState) (i : ℕ) :
    (sweepStep P fld geo sdt rdt st i).tIdx =
      if activeAt st.ps i = true ∧ typeAt st.ps i = ParticleType.TRITIUM
      then st.tIdx ++ [i] else st.tIdx := by
  simp only [sweepStep, activeAt, typeAt]
  by_cases h1 : (st.ps.getD i default).active = false
  · rw [if_pos h1, if_neg (by rw [h1]; simp)]
  · rw [if_neg h1]
    dsimp only
    have hact : (st.ps.getD i default).active = true :=
      Bool.of_not_eq_false h1
    by_cases h2 : (st.ps.getD i default).type = ParticleType.TRITIUM
    · rw [if_pos h2, if_pos ⟨hact, h2⟩]
    · rw [if_neg h2, if_neg (fun hcon => h2 hcon.2)]

lemma sweep_fold_spec (P : Params) (fld : MagneticField)
    (geo : TokamakGeometry) (sdt rdt : ℝ) (ps : List Particle) (rng : Rng) :
    ∀ k : ℕ,
      ((List.range k).foldl (sweepStep P fld geo sdt rdt)
        ⟨ps, rng, [], []⟩).ps.length = ps.length ∧
      (∀ j, k ≤ j →
        typeAt ((List.range k).foldl (sweepStep P fld geo sdt rdt)
          ⟨ps, rng, [], []⟩).ps j = typeAt ps j ∧
        activeAt ((List.range k).foldl (sweepStep P fld geo sdt rdt)
          ⟨ps, rng, [], []⟩).ps j = activeAt ps j) ∧
      ((List.range k).foldl (sweepStep P fld geo sdt rdt)
        ⟨ps, rng, [], []⟩).dIdx =
        (List.range k).filter (isActiveOf ps ParticleType.DEUTERIUM) ∧
      ((List.range k).foldl (sweepStep P fld geo sdt rdt)
        ⟨ps, rng, [], []⟩).tIdx =
        (List.range k).filter (isActiveOf ps ParticleType.TRITIUM) := by
  intro k
  induction k with
  | zero => exact ⟨rfl, fun j _ => ⟨rfl, rfl⟩, rfl, rfl⟩
  | succ k ih =>
      obtain ⟨ihlen, ihflags, ihd, iht⟩ := ih
      rw [List.range_succ, List.foldl_append, List.foldl_cons, List.foldl_nil]
      have hflagk := ihflags k le_rfl
      refine ⟨?_, ?_, ?_, ?_⟩
      · rw [sweepStep_length, ihlen]
      · intro j hj
        have hkj : k ≠ j := by omega
        constructor
        · rw [sweepStep_typeAt_ne _ _ _ _ _ _ _ _ hkj,
            (ihflags j (by omega)).1]
        · rw [sweepStep_activeAt_ne _ _ _ _ _ _ _ _ hkj,
            (ihflags j (by omega)).2]
      · rw [sweepStep_dIdx, hflagk.1, hflagk.2, ihd, List.filter_append]
        by_cases hC : activeAt ps k = true ∧
            typeAt ps k = ParticleType.DEUTERIUM
        · rw [if_pos hC]
          have hb : isActiveOf ps ParticleType.DEUTERIUM k = true := by
            unfold isActiveOf
            rw [decide_eq_true_eq]
            exact hC
          simp [List.filter_cons, hb]
        · rw [if_neg hC]
          have hb : isActiveOf ps ParticleType.DEUTERIUM k = false := by
            unfold isActiveOf
            rw [decide_eq_false_iff_not]
            exact hC
          simp [List.filter_cons, hb]
      · rw [sweepStep_tIdx, hflagk.1, hflagk.2, iht, List.filter_append]
        by_cases hC : activeAt ps k = true ∧
            typeAt ps k = ParticleType.TRITIUM
        · rw [if_pos hC]
          have hb : isActiveOf ps ParticleType.TRITIUM k = true := by
            unfold isActiveOf
            rw [decide_eq_true_eq]
            exact hC
          simp [List.filter_cons, hb]
        · rw [if_neg hC]
          have hb : isActiveOf ps ParticleType.TRITIUM k = false := by
            unfold isActiveOf
            rw [decide_eq_false_iff_not]
            exact hC
          simp [List.filter_cons, hb]

lemma sweepPhase_spec (P : Params) (fld : MagneticField)
    (geo : TokamakGeometry) (sdt rdt : ℝ) (ps : List Particle) (rng : Rng) :
    (sweepPhase P fld geo sdt rdt ps rng).ps.length = ps.length ∧
    (sweepPhase P fld geo sdt rdt ps rng).dIdx =
      activeIdx ps ParticleType.DEUTERIUM ∧
    (sweepPhase P fld geo sdt rdt ps rng).tIdx =
      activeIdx ps ParticleType.TRITIUM := by
  obtain ⟨h1, _, h3, h4⟩ := sweep_fold_spec P fld geo sdt rdt ps rng ps.length
  exact ⟨h1, h3, h4⟩

lemma activeIdx_lt_length (ps : List Particle) (t : ParticleType) :
    ∀ i ∈ activeIdx ps t, i < ps.length := by
  intro i hi
  have h := List.mem_filter.mp hi
  exact List.mem_range.mp h.1

lemma attemptFusion_created_types (P : Params) (p1 p2 : Particle)
    (rng : Rng) (dt : ℝ) (force : Bool) :
    ∀ q ∈ (attemptFusion P p1 p2 rng dt force).created,
      q.type = ParticleType.HELIUM ∨ q.type = ParticleType.NEUTRON := by
  intro q hq
  simp only [attemptFusion] at hq
  split_ifs at hq
  all_goals simp only [List.mem_cons, List.not_mem_nil, or_false] at hq
  all_goals
    cases hq with
    | inl h => exact Or.inl (by rw [h, createParticle_type])
    | inr h => exact Or.inr (by rw [h, createParticle_type])

lemma fusionIter_length (P : Params) (dIdx tIdx : List ℕ) (sdt : ℝ)
    (st : FusionState) :
    (fusionIter P dIdx tIdx sdt st).ps.length = st.ps.length := by
  simp only [fusionIter]
  split_ifs with h
  · rfl
  · dsimp only
    rw [List.length_set, List.length_set]

lemma fusionIter_untouched (P : Params) (dIdx tIdx : List ℕ) (sdt : ℝ)
    (st : FusionState) (j : ℕ) (hND : 0 < dIdx.length)
    (hNT : 0 < tIdx.length) (hjd : j ∉ dIdx) (hjt : j ∉ tIdx) :
    (fusionIter P dIdx tIdx sdt st).ps.getD j default =
      st.ps.getD j default := by
  have hmd : (st.rng.n st.rng.k) % dIdx.length < dIdx.length :=
    Nat.mod_lt _ hND
  have hmt : (st.rng.next.n st.rng.next.k) % tIdx.length < tIdx.length :=
    Nat.mod_lt _ hNT
  have hid : dIdx.getD ((st.rng.n st.rng.k) % dIdx.length) 0 ∈ dIdx := by
    rw [List.getD_eq_getElem dIdx 0 hmd]
    exact List.getElem_mem _
  have hit : tIdx.getD ((st.rng.next.n st.rng.next.k) % tIdx.length) 0 ∈
      tIdx := by
    rw [List.getD_eq_getElem tIdx 0 hmt]
    exact List.getElem_mem _
  have h1 : dIdx.getD ((st.rng.n st.rng.k) % dIdx.length) 0 ≠ j :=
    fun he => hjd (he ▸ hid)
  have h2 : tIdx.getD ((st.rng.next.n st.rng.next.k) % tIdx.length) 0 ≠ j :=
    fun he => hjt (he ▸ hit)
  simp only [fusionIter, Rng.uniformN]
  split_ifs with h
  · rfl
  · dsimp only
    rw [getD_set_ne _ _ _ _ h2, getD_set_ne _ _ _ _ h1]

lemma fusionIter_new_types (P : Params) (dIdx tIdx : List ℕ) (sdt : ℝ)
    (st : FusionState)
    (hprev : ∀ q ∈ st.newParticles,
      q.type = ParticleType.HELIUM ∨ q.type = ParticleType.NEUTRON) :
    ∀ q ∈ (fusionIter P dIdx tIdx sdt st).newParticles,
      q.type = ParticleType.HELIUM ∨ q.type = ParticleType.NEUTRON := by
  simp only [fusionIter]
  split_ifs with h
  · exact hprev
  · dsimp only
    intro q hq
    rcases List.mem_append.mp hq with h' | h'
    · exact hprev q h'
    · exact attemptFusion_created_types P _ _ _ _ _ q h'

lemma fusionIter_iterate_spec (P : Params) (dIdx tIdx : List ℕ) (sdt : ℝ)
    (hND : 0 < dIdx.length) (hNT : 0 < tIdx.length) :
    ∀ (n : ℕ) (st : FusionState),
      ((fusionIter P dIdx tIdx sdt)^[n] st).ps.length = st.ps.length ∧
      (∀ j, j ∉ dIdx → j ∉ tIdx →
        ((fusionIter P dIdx tIdx sdt)^[n] st).ps.getD j default =
          st.ps.getD j default) ∧
      ((∀ q ∈ st.newParticles,
          q.type = ParticleType.HELIUM ∨ q.type = ParticleType.NEUTRON) →
        ∀ q ∈ ((fusionIter P dIdx tIdx sdt)^[n] st).newParticles,
          q.type = ParticleType.HELIUM ∨ q.type = ParticleType.NEUTRON) := by
  intro n
  induction n with
  | zero => exact fun st => ⟨rfl, fun j _ _ => rfl, fun h => h⟩
  | succ n ih =>
      intro st
      rw [Function.iterate_succ_apply]
      obtain ⟨l1, l2, l3⟩ := ih (fusionIter P dIdx tIdx sdt st)
      refine ⟨by rw [l1, fusionIter_length], ?_, ?_⟩
      · intro j hjd hjt
        rw [l2 j hjd hjt,
          fusionIter_untouched P dIdx tIdx sdt st j hND hNT hjd hjt]
      · intro hprev
        exact l3 (fusionIter_new_types P dIdx tIdx sdt st hprev)

lemma fusionPhase_spec (P : Params) (geo : TokamakGeometry)
    (dIdx tIdx : List ℕ) (realDt scaledDt : ℝ) (ps : List Particle)
    (rng : Rng) :
    (fusionPhase P geo dIdx tIdx realDt scaledDt ps rng).ps.length =
      ps.length ∧
    (∀ j, j ∉ dIdx → j ∉ tIdx →
      (fusionPhase P geo dIdx tIdx realDt scaledDt ps rng).ps.getD j
        default = ps.getD j default) ∧
    (∀ q ∈ (fusionPhase P geo dIdx tIdx realDt scaledDt ps
        rng).newParticles,
      q.type = ParticleType.HELIUM ∨ q.type = ParticleType.NEUTRON) := by
  simp only [fusionPhase]
  split_ifs with h
  · have hND : 0 < dIdx.length := lt_of_lt_of_le h (min_le_left _ _)
    have hNT : 0 < tIdx.length := lt_of_lt_of_le h (min_le_right _ _)
    obtain ⟨l1, l2, l3⟩ := fusionIter_iterate_spec P dIdx tIdx scaledDt
      hND hNT
      (numFusionsVal P geo dIdx.length tIdx.length realDt
        (rng.uniformR 0.0 1.0).1)
      ⟨ps, [], (rng.uniformR 0.0 1.0).2⟩
    exact ⟨l1, fun j hd ht => l2 j hd ht,
      l3 (by intro q hq; exact absurd hq (List.not_mem_nil q))⟩
  · exact ⟨rfl, fun j _ _ => rfl,
      by intro q hq; exact absurd hq (List.not_mem_nil q)⟩

/-- Claim C2: during a single `updateParticles` step, fusion products are
accumulated in a pending buffer and appended to the store only after the
per-particle sweep and the fusion-sampling pass both complete; the
Deuterium/Tritium index lists used by the sampling pass are exactly the
indices of the particles of those species that were active at the start
of the step (all below the initial store length); the sampling pass
leaves every particle outside those lists untouched and its pending
buffer holds only Helium-4/Neutron products, so no particle created
during the step is integrated, collision-checked, or selectable as a
fusion reactant within the same step. -/
theorem C2_buffered_creation_and_start_population (P : Params)
    (fld : MagneticField) (geo : TokamakGeometry) (ps : List Particle)
    (dt : ℝ) (rng : Rng) :
    (updateParticles P fld geo ps dt rng).1 =
      (fusionOf P fld geo ps dt rng).ps ++
      (fusionOf P fld geo ps dt rng).newParticles ∧
    (sweepOf P fld geo ps dt rng).dIdx =
      activeIdx ps ParticleType.DEUTERIUM ∧
    (sweepOf P fld geo ps dt rng).tIdx =
      activeIdx ps ParticleType.TRITIUM ∧
    (∀ i ∈ activeIdx ps ParticleType.DEUTERIUM, i < ps.length) ∧
    (∀ i ∈ activeIdx ps ParticleType.TRITIUM, i < ps.length) ∧
    (sweepOf P fld geo ps dt rng).ps.length = ps.length ∧
    (fusionOf P fld geo ps dt rng).ps.length = ps.length ∧
    (∀ j, j ∉ activeIdx ps ParticleType.DEUTERIUM →
      j ∉ activeIdx ps ParticleType.TRITIUM →
      (fusionOf P fld geo ps dt rng).ps.getD j default =
        (sweepOf P fld geo ps dt rng).ps.getD j default) ∧
    (∀ q ∈ (fusionOf P fld geo ps dt rng).newParticles,
      q.type = ParticleType.HELIUM ∨ q.type = ParticleType.NEUTRON) := by
  obtain ⟨hslen, hd, ht⟩ := sweepPhase_spec P fld geo (dt * P.timeScale)
    dt ps rng
  obtain ⟨hflen, huntouched, htypes⟩ := fusionPhase_spec P geo
    (sweepPhase P fld geo (dt * P.timeScale) dt ps rng).dIdx
    (sweepPhase P fld geo (dt * P.timeScale) dt ps rng).tIdx
    dt (dt * P.timeScale)
    (sweepPhase P fld geo (dt * P.timeScale) dt ps rng).ps
    (sweepPhase P fld geo (dt * P.timeScale) dt ps rng).rng
  simp only [fusionOf, sweepOf]
  refine ⟨rfl, hd, ht, activeIdx_lt_length ps _, activeIdx_lt_length ps _,
    hslen, hflen.trans hslen, ?_, htypes⟩
  intro j hjd hjt
  exact huntouched j (by rw [hd]; exact hjd) (by rw [ht]; exact hjt)

/-- Witness for C2 (closed instantiation at concrete inputs). -/
theorem C2_buffered_creation_witness :
    (updateParticles defParams (mkMagneticField 1.2 0.4 8) defGeometry []
        1 constRng).1 =
      (fusionOf defParams (mkMagneticField 1.2 0.4 8) defGeometry []
        1 constRng).ps ++
      (fusionOf defParams (mkMagneticField 1.2 0.4 8) defGeometry []
        1 constRng).newParticles ∧
    (sweepOf defParams (mkMagneticField 1.2 0.4 8) defGeometry []
        1 constRng).dIdx = activeIdx [] ParticleType.DEUTERIUM :=
  have h := C2_buffered_creation_and_start_population defParams
    (mkMagneticField 1.2 0.4 8) defGeometry [] 1 constRng
  ⟨h.1, h.2.1⟩

/-! ## Boundary collision: Lipschitz bound for the signed distance -/

lemma sqrt_sq_add_sq_triangle (u1 u2 v1 v2 : ℝ) :
    Real.sqrt ((u1 + v1) ^ 2 + (u2 + v2) ^ 2) ≤
      Real.sqrt (u1 ^ 2 + u2 ^ 2) + Real.sqrt (v1 ^ 2 + v2 ^ 2) := by
  have hU : (0 : ℝ) ≤ u1 ^ 2 + u2 ^ 2 := by positivity
  have hV : (0 : ℝ) ≤ v1 ^ 2 + v2 ^ 2 := by positivity
  have hcs : (u1 * v1 + u2 * v2) ^ 2 ≤ (u1 ^ 2 + u2 ^ 2) *
      (v1 ^ 2 + v2 ^ 2) := by
    nlinarith [sq_nonneg (u1 * v2 - u2 * v1)]
  have hdot : u1 * v1 + u2 * v2 ≤
      Real.sqrt (u1 ^ 2 + u2 ^ 2) * Real.sqrt (v1 ^ 2 + v2 ^ 2) := by
    have h1 := le_abs_self (u1 * v1 + u2 * v2)
    have h2 : |u1 * v1 + u2 * v2| =
        Real.sqrt ((u1 * v1 + u2 * v2) ^ 2) := (Real.sqrt_sq_eq_abs _).symm
    have h3 : Real.sqrt ((u1 * v1 + u2 * v2) ^ 2) ≤
        Real.sqrt ((u1 ^ 2 + u2 ^ 2) * (v1 ^ 2 + v2 ^ 2)) :=
      Real.sqrt_le_sqrt hcs
    rw [Real.sqrt_mul hU] at h3
    linarith
  have hexp : (u1 + v1) ^ 2 + (u2 + v2) ^ 2 =
      (u1 ^ 2 + u2 ^ 2) + (v1 ^ 2 + v2 ^ 2) + 2 * (u1 * v1 + u2 * v2) := by
    ring
  have hsq : (u1 ^ 2 + u2 ^ 2) + (v1 ^ 2 + v2 ^ 2) +
      2 * (u1 * v1 + u2 * v2) ≤
      (Real.sqrt (u1 ^ 2 + u2 ^ 2) + Real.sqrt (v1 ^ 2 + v2 ^ 2)) ^ 2 := by
    have he : (Real.sqrt (u1 ^ 2 + u2 ^ 2) +
        Real.sqrt (v1 ^ 2 + v2 ^ 2)) ^ 2 =
        (u1 ^ 2 + u2 ^ 2) + (v1 ^ 2 + v2 ^ 2) +
        2 * (Real.sqrt (u1 ^ 2 + u2 ^ 2) * Real.sqrt (v1 ^ 2 + v2 ^ 2)) := by
      rw [add_sq, Real.sq_sqrt hU, Real.sq_sqrt hV]
      ring
    linarith
  rw [hexp]
  calc Real.sqrt ((u1 ^ 2 + u2 ^ 2) + (v1 ^ 2 + v2 ^ 2) +
        2 * (u1 * v1 + u2 * v2)) ≤
      Real.sqrt ((Real.sqrt (u1 ^ 2 + u2 ^ 2) +
        Real.sqrt (v1 ^ 2 + v2 ^ 2)) ^ 2) := Real.sqrt_le_sqrt hsq
    _ = Real.sqrt (u1 ^ 2 + u2 ^ 2) + Real.sqrt (v1 ^ 2 + v2 ^ 2) :=
      Real.sqrt_sq (by positivity)

lemma sqrt_sq_add_sq_sub_le (a b c d : ℝ) :
    Real.sqrt (a ^ 2 + b ^ 2) - Real.sqrt (c ^ 2 + d ^ 2) ≤
      Real.sqrt ((a - c) ^ 2 + (b - d) ^ 2) := by
  have h := sqrt_sq_add_sq_triangle c d (a - c) (b - d)
  rw [show c + (a - c) = a by ring, show d + (b - d) = b by ring] at h
  linarith

lemma torusSDF_sub_le (geo : TokamakGeometry) (x y z x' y' z' : ℝ) :
    geo.torusSDF x y z - geo.torusSDF x' y' z' ≤
      Real.sqrt ((x - x') ^ 2 + (y - y') ^ 2 + (z - z') ^ 2) := by
  have hg : Real.sqrt (x * x + z * z) - Real.sqrt (x' * x' + z' * z') ≤
      Real.sqrt ((x - x') ^ 2 + (z - z') ^ 2) := by
    have h := sqrt_sq_add_sq_sub_le x z x' z'
    rw [show x ^ 2 + z ^ 2 = x * x + z * z by ring,
      show x' ^ 2 + z' ^ 2 = x' * x' + z' * z' by ring] at h
    exact h
  have hg' : Real.sqrt (x' * x' + z' * z') - Real.sqrt (x * x + z * z) ≤
      Real.sqrt ((x - x') ^ 2 + (z - z') ^ 2) := by
    have h := sqrt_sq_add_sq_sub_le x' z' x z
    rw [show x' ^ 2 + z' ^ 2 = x' * x' + z' * z' by ring,
      show x ^ 2 + z ^ 2 = x * x + z * z by ring,
      show (x' - x) ^ 2 + (z' - z) ^ 2 = (x - x') ^ 2 + (z - z') ^ 2
        by ring] at h
    exact h
  simp only [TokamakGeometry.torusSDF]
  have hsub : (Real.sqrt (x * x + z * z) - geo.torusMajorR) -
      (Real.sqrt (x' * x' + z' * z') - geo.torusMajorR) =
      Real.sqrt (x * x + z * z) - Real.sqrt (x' * x' + z' * z') := by ring
  have hmain : Real.sqrt ((Real.sqrt (x * x + z * z) - geo.torusMajorR) *
      (Real.sqrt (x * x + z * z) - geo.torusMajorR) + y * y) -
      Real.sqrt ((Real.sqrt (x' * x' + z' * z') - geo.torusMajorR) *
      (Real.sqrt (x' * x' + z' * z') - geo.torusMajorR) + y' * y') ≤
      Real.sqrt ((x - x') ^ 2 + (y - y') ^ 2 + (z - z') ^ 2) := by
    have h1 := sqrt_sq_add_sq_sub_le
      (Real.sqrt (x * x + z * z) - geo.torusMajorR) y
      (Real.sqrt (x' * x' + z' * z') - geo.torusMajorR) y'
    rw [show (Real.sqrt (x * x + z * z) - geo.torusMajorR) ^ 2 + y ^ 2 =
        (Real.sqrt (x * x + z * z) - geo.torusMajorR) *
        (Real.sqrt (x * x + z * z) - geo.torusMajorR) + y * y by ring,
      show (Real.sqrt (x' * x' + z' * z') - geo.torusMajorR) ^ 2 + y' ^ 2 =
        (Real.sqrt (x' * x' + z' * z') - geo.torusMajorR) *
        (Real.sqrt (x' * x' + z' * z') - geo.torusMajorR) + y' * y'
        by ring, hsub] at h1
    have h2 : (Real.sqrt (x * x + z * z) -
        Real.sqrt (x' * x' + z' * z')) ^ 2 ≤
        (x - x') ^ 2 + (z - z') ^ 2 := by
      have hnn : (0 : ℝ) ≤ (x - x') ^ 2 + (z - z') ^ 2 := by positivity
      have hs := Real.sq_sqrt hnn
      nlinarith [Real.sqrt_nonneg ((x - x') ^ 2 + (z - z') ^ 2)]
    have h3 : Real.sqrt ((Real.sqrt (x * x + z * z) -
        Real.sqrt (x' * x' + z' * z')) ^ 2 + (y - y') ^ 2) ≤
        Real.sqrt ((x - x') ^ 2 + (y - y') ^ 2 + (z - z') ^ 2) :=
      Real.sqrt_le_sqrt (by linarith)
    linarith
  linarith [hmain]

lemma norm_div_len_le (r1 r2 r3 : ℝ) :
    Real.sqrt ((r1 / (Real.sqrt (r1 * r1 + r2 * r2 + r3 * r3) + 1e-10)) ^ 2 +
      (r2 / (Real.sqrt (r1 * r1 + r2 * r2 + r3 * r3) + 1e-10)) ^ 2 +
      (r3 / (Real.sqrt (r1 * r1 + r2 * r2 + r3 * r3) + 1e-10)) ^ 2) ≤ 1 := by
  have hS0 : (0 : ℝ) ≤ r1 * r1 + r2 * r2 + r3 * r3 := by
    nlinarith [mul_self_nonneg r1, mul_self_nonneg r2, mul_self_nonneg r3]
  have hL : (0 : ℝ) < Real.sqrt (r1 * r1 + r2 * r2 + r3 * r3) + 1e-10 := by
    have := Real.sqrt_nonneg (r1 * r1 + r2 * r2 + r3 * r3)
    linarith
  have key : (r1 / (Real.sqrt (r1 * r1 + r2 * r2 + r3 * r3) + 1e-10)) ^ 2 +
      (r2 / (Real.sqrt (r1 * r1 + r2 * r2 + r3 * r3) + 1e-10)) ^ 2 +
      (r3 / (Real.sqrt (r1 * r1 + r2 * r2 + r3 * r3) + 1e-10)) ^ 2 =
      (r1 * r1 + r2 * r2 + r3 * r3) /
        (Real.sqrt (r1 * r1 + r2 * r2 + r3 * r3) + 1e-10) ^ 2 := by
    field_simp
    ring
  rw [key, Real.sqrt_div hS0, Real.sqrt_sq hL.le]
  rw [div_le_one hL]
  have := Real.sqrt_nonneg (r1 * r1 + r2 * r2 + r3 * r3)
  linarith [Real.sqrt_le_sqrt (le_refl (r1 * r1 + r2 * r2 + r3 * r3))]

lemma torusNormal_norm_le (geo : TokamakGeometry) (x y z : ℝ) :
    Real.sqrt ((geo.torusNormal x y z).1 ^ 2 +
      (geo.torusNormal x y z).2.1 ^ 2 +
      (geo.torusNormal x y z).2.2 ^ 2) ≤ 1 := by
  simp only [TokamakGeometry.torusNormal]
  exact norm_div_len_le _ _ _

/-- Claim C8 (amended): a particle found outside (`sdf > 0`) is pushed
back along the inward finite-difference normal by `(sdf+edgeBuffer)·1.05`;
since the normalised normal has length at most one and the signed
distance is 1-Lipschitz, the post-collision signed distance is at most
`sdf + 1.05·(sdf + edgeBuffer)`.  A uniform small-tolerance bound does
not hold: a particle far outside can end up far outside again (see the
counterexample). -/
theorem C8_pushback_displacement_bound (P : Params) (geo : TokamakGeometry)
    (p : Particle) (dt : ℝ) (rng : Rng)
    (h : geo.torusSDF p.x p.y p.z > 0.0) :
    geo.torusSDF (checkBoundaryCollision3D P geo p dt rng).1.x
        (checkBoundaryCollision3D P geo p dt rng).1.y
        (checkBoundaryCollision3D P geo p dt rng).1.z ≤
      geo.torusSDF p.x p.y p.z +
        1.05 * (geo.torusSDF p.x p.y p.z + 0.01) := by
  have hpos : (checkBoundaryCollision3D P geo p dt rng).1.x =
      p.x - (geo.torusSDF p.x p.y p.z + 0.01) *
        (geo.torusNormal p.x p.y p.z).1 * 1.05 ∧
      (checkBoundaryCollision3D P geo p dt rng).1.y =
      p.y - (geo.torusSDF p.x p.y p.z + 0.01) *
        (geo.torusNormal p.x p.y p.z).2.1 * 1.05 ∧
      (checkBoundaryCollision3D P geo p dt rng).1.z =
      p.z - (geo.torusSDF p.x p.y p.z + 0.01) *
        (geo.torusNormal p.x p.y p.z).2.2 * 1.05 := by
    simp only [checkBoundaryCollision3D]
    rw [if_pos h]
    split_ifs <;> exact ⟨rfl, rfl, rfl⟩
  rw [hpos.1, hpos.2.1, hpos.2.2]
  have hlip := torusSDF_sub_le geo
    (p.x - (geo.torusSDF p.x p.y p.z + 0.01) *
      (geo.torusNormal p.x p.y p.z).1 * 1.05)
    (p.y - (geo.torusSDF p.x p.y p.z + 0.01) *
      (geo.torusNormal p.x p.y p.z).2.1 * 1.05)
    (p.z - (geo.torusSDF p.x p.y p.z + 0.01) *
      (geo.torusNormal p.x p.y p.z).2.2 * 1.05)
    p.x p.y p.z
  have hc0 : (0 : ℝ) ≤ (geo.torusSDF p.x p.y p.z + 0.01) * 1.05 := by
    nlinarith
  have hsq : (p.x - (geo.torusSDF p.x p.y p.z + 0.01) *
        (geo.torusNormal p.x p.y p.z).1 * 1.05 - p.x) ^ 2 +
      (p.y - (geo.torusSDF p.x p.y p.z + 0.01) *
        (geo.torusNormal p.x p.y p.z).2.1 * 1.05 - p.y) ^ 2 +
      (p.z - (geo.torusSDF p.x p.y p.z + 0.01) *
        (geo.torusNormal p.x p.y p.z).2.2 * 1.05 - p.z) ^ 2 =
      ((geo.torusSDF p.x p.y p.z + 0.01) * 1.05) ^ 2 *
        ((geo.torusNormal p.x p.y p.z).1 ^ 2 +
         (geo.torusNormal p.x p.y p.z).2.1 ^ 2 +
         (geo.torusNormal p.x p.y p.z).2.2 ^ 2) := by
    ring
  rw [hsq, Real.sqrt_mul (sq_nonneg _), Real.sqrt_sq hc0] at hlip
  have hn := torusNormal_norm_le geo p.x p.y p.z
  have hmul : ((geo.torusSDF p.x p.y p.z + 0.01) * 1.05) *
      Real.sqrt ((geo.torusNormal p.x p.y p.z).1 ^ 2 +
        (geo.torusNormal p.x p.y p.z).2.1 ^ 2 +
        (geo.torusNormal p.x p.y p.z).2.2 ^ 2) ≤
      ((geo.torusSDF p.x p.y p.z + 0.01) * 1.05) * 1 :=
    mul_le_mul_of_nonneg_left hn hc0
  linarith

/-- Witness for C8 (amended): a concrete particle just outside the torus
satisfies the `sdf > 0` hypothesis and obeys the displacement bound. -/
theorem C8_pushback_displacement_bound_witness :
    defGeometry.torusSDF (createParticle .DEUTERIUM 1.7 0 0 0 0 0).x
      (createParticle .DEUTERIUM 1.7 0 0 0 0 0).y
      (createParticle .DEUTERIUM 1.7 0 0 0 0 0).z > 0.0 ∧
    defGeometry.torusSDF
        (checkBoundaryCollision3D defParams defGeometry
          (createParticle .DEUTERIUM 1.7 0 0 0 0 0) 0.01 constRng).1.x
        (checkBoundaryCollision3D defParams defGeometry
          (createParticle .DEUTERIUM 1.7 0 0 0 0 0) 0.01 constRng).1.y
        (checkBoundaryCollision3D defParams defGeometry
          (createParticle .DEUTERIUM 1.7 0 0 0 0 0) 0.01 constRng).1.z ≤
      defGeometry.torusSDF (createParticle .DEUTERIUM 1.7 0 0 0 0 0).x
        (createParticle .DEUTERIUM 1.7 0 0 0 0 0).y
        (createParticle .DEUTERIUM 1.7 0 0 0 0 0).z +
      1.05 * (defGeometry.torusSDF (createParticle .DEUTERIUM 1.7 0 0 0 0 0).x
        (createParticle .DEUTERIUM 1.7 0 0 0 0 0).y
        (createParticle .DEUTERIUM 1.7 0 0 0 0 0).z + 0.01) := by
  have hsdf : defGeometry.torusSDF
      (createParticle .DEUTERIUM 1.7 0 0 0 0 0).x
      (createParticle .DEUTERIUM 1.7 0 0 0 0 0).y
      (createParticle .DEUTERIUM 1.7 0 0 0 0 0).z > 0.0 := by
    rw [createParticle_x, createParticle_y, createParticle_z]
    simp only [TokamakGeometry.torusSDF, defGeometry]
    rw [sqrt_eq_of_sq (1.7 * 1.7 + 0 * 0) 1.7 (by norm_num) (by norm_num)]
    rw [sqrt_eq_of_sq ((1.7 - 1.2) * (1.7 - 1.2) + 0 * 0) 0.5 (by norm_num)
      (by norm_num)]
    norm_num
  exact ⟨hsdf, C8_pushback_displacement_bound defParams defGeometry
    (createParticle .DEUTERIUM 1.7 0 0 0 0 0) 0.01 constRng hsdf⟩

lemma torusNormal_decompose (geo : TokamakGeometry) (x y z : ℝ) :
    geo.torusNormal x y z =
      ((torusNormalRaw geo x y z).1 / torusNormalLen geo x y z,
       (torusNormalRaw geo x y z).2.1 / torusNormalLen geo x y z,
       (torusNormalRaw geo x y z).2.2 / torusNormalLen geo x y z) := rfl

set_option maxHeartbeats 2000000 in
/-- Counterexample to claim C8 as stated: a particle far outside the
torus, at `(100, 0, 0)` (signed distance `98.4`), still has signed
distance greater than `1` after `checkBoundaryCollision3D` — the
`(sdf + edgeBuffer)·1.05` push overshoots the near surface point by
`0.05·sdf + 0.0105`, carrying the particle through the tube and out the
far side, so the post-correction distance is not bounded by a small
edge-buffer tolerance. -/
theorem C8_counterexample :
    defGeometry.torusSDF
      (checkBoundaryCollision3D defParams defGeometry
        (createParticle .DEUTERIUM 100 0 0 0 0 0) 0.01 constRng).1.x
      (checkBoundaryCollision3D defParams defGeometry
        (createParticle .DEUTERIUM 100 0 0 0 0 0) 0.01 constRng).1.y
      (checkBoundaryCollision3D defParams defGeometry
        (createParticle .DEUTERIUM 100 0 0 0 0 0) 0.01 constRng).1.z
    > 1 := by
  have hsdf0 : defGeometry.torusSDF (100 : ℝ) 0 0 = 98.4 := by
    simp only [TokamakGeometry.torusSDF, defGeometry]
    rw [sqrt_eq_of_sq ((100 : ℝ) * 100 + 0 * 0) 100 (by norm_num)
      (by norm_num)]
    rw [show ((100 : ℝ) - 1.2) * (100 - 1.2) + 0 * 0 = 9761.44 by norm_num]
    rw [sqrt_eq_of_sq (9761.44 : ℝ) 98.8 (by norm_num) (by norm_num)]
    norm_num
  have hA : defGeometry.torusSDF ((100 : ℝ) + 0.001) 0 0 = 98.401 := by
    simp only [TokamakGeometry.torusSDF, defGeometry]
    rw [show ((100 : ℝ) + 0.001) * (100 + 0.001) + 0 * 0 = 10000.200001
      by norm_num]
    rw [sqrt_eq_of_sq (10000.200001 : ℝ) 100.001 (by norm_num) (by norm_num)]
    rw [show ((100.001 : ℝ) - 1.2) * (100.001 - 1.2) + 0 * 0 = 9761.637601
      by norm_num]
    rw [sqrt_eq_of_sq (9761.637601 : ℝ) 98.801 (by norm_num) (by norm_num)]
    norm_num
  have hBlo : (98.8 : ℝ) < Real.sqrt 9761.440001 :=
    (Real.lt_sqrt (by norm_num)).mpr (by norm_num)
  have hBhi : Real.sqrt 9761.440001 < 98.8 + 5.1e-9 :=
    (Real.sqrt_lt' (by norm_num)).mpr (by norm_num)
  have hBeq : defGeometry.torusSDF (100 : ℝ) (0 + 0.001) 0 =
      Real.sqrt 9761.440001 - 0.4 := by
    simp only [TokamakGeometry.torusSDF, defGeometry]
    rw [sqrt_eq_of_sq ((100 : ℝ) * 100 + 0 * 0) 100 (by norm_num)
      (by norm_num)]
    rw [show ((100 : ℝ) - 1.2) * (100 - 1.2) + (0 + 0.001) * (0 + 0.001) =
      9761.440001 by norm_num]
  have hClo : (100 : ℝ) < Real.sqrt 10000.000001 :=
    (Real.lt_sqrt (by norm_num)).mpr (by norm_num)
  have hChi : Real.sqrt 10000.000001 < 100 + 5.1e-9 :=
    (Real.sqrt_lt' (by norm_num)).mpr (by norm_num)
  have hCeq : defGeometry.torusSDF (100 : ℝ) 0 (0 + 0.001) =
      Real.sqrt 10000.000001 - 1.6 := by
    simp only [TokamakGeometry.torusSDF, defGeometry]
    rw [show (100 : ℝ) * 100 + (0 + 0.001) * (0 + 0.001) = 10000.000001
      by norm_num]
    have hpos : (0 : ℝ) ≤ Real.sqrt 10000.000001 - 1.2 := by linarith
    rw [show (Real.sqrt 10000.000001 - 1.2) * (Real.sqrt 10000.000001 - 1.2)
      + (0 : ℝ) * 0 = (Real.sqrt 10000.000001 - 1.2) ^ 2 by ring]
    rw [Real.sqrt_sq hpos]
    ring
  -- raw normal components at (100, 0, 0)
  have hAv : (torusNormalRaw defGeometry 100 0 0).1 = 0.001 := by
    simp only [torusNormalRaw]
    rw [hA, hsdf0]
    norm_num
  have hBv : (torusNormalRaw defGeometry 100 0 0).2.1 =
      Real.sqrt 9761.440001 - 98.8 := by
    simp only [torusNormalRaw]
    rw [hBeq, hsdf0]
    ring
  have hCv : (torusNormalRaw defGeometry 100 0 0).2.2 =
      Real.sqrt 10000.000001 - 100 := by
    simp only [torusNormalRaw]
    rw [hCeq, hsdf0]
    ring
  have hB0 : (0 : ℝ) < (torusNormalRaw defGeometry 100 0 0).2.1 := by
    rw [hBv]; linarith
  have hB1 : (torusNormalRaw defGeometry 100 0 0).2.1 ≤ 5.1e-9 := by
    rw [hBv]; linarith
  have hC0 : (0 : ℝ) < (torusNormalRaw defGeometry 100 0 0).2.2 := by
    rw [hCv]; linarith
  have hC1 : (torusNormalRaw defGeometry 100 0 0).2.2 ≤ 5.1e-9 := by
    rw [hCv]; linarith
  -- the normalisation length
  have hArg_lo : (1e-6 : ℝ) ≤
      (torusNormalRaw defGeometry 100 0 0).1 *
        (torusNormalRaw defGeometry 100 0 0).1 +
      (torusNormalRaw defGeometry 100 0 0).2.1 *
        (torusNormalRaw defGeometry 100 0 0).2.1 +
      (torusNormalRaw defGeometry 100 0 0).2.2 *
        (torusNormalRaw defGeometry 100 0 0).2.2 := by
    rw [hAv]
    nlinarith [hB0, hC0]
  have hArg_hi :
      (torusNormalRaw defGeometry 100 0 0).1 *
        (torusNormalRaw defGeometry 100 0 0).1 +
      (torusNormalRaw defGeometry 100 0 0).2.1 *
        (torusNormalRaw defGeometry 100 0 0).2.1 +
      (torusNormalRaw defGeometry 100 0 0).2.2 *
        (torusNormalRaw defGeometry 100 0 0).2.2 ≤ 1e-6 + 6e-17 := by
    rw [hAv]
    nlinarith [hB0, hB1, hC0, hC1]
  have hL_lo : 0.001 + 1e-10 ≤ torusNormalLen defGeometry 100 0 0 := by
    simp only [torusNormalLen]
    have h1 : (0.001 : ℝ) ≤ Real.sqrt
        ((torusNormalRaw defGeometry 100 0 0).1 *
          (torusNormalRaw defGeometry 100 0 0).1 +
        (torusNormalRaw defGeometry 100 0 0).2.1 *
          (torusNormalRaw defGeometry 100 0 0).2.1 +
        (torusNormalRaw defGeometry 100 0 0).2.2 *
          (torusNormalRaw defGeometry 100 0 0).2.2) :=
      Real.le_sqrt_of_sq_le (by nlinarith [hArg_lo])
    linarith
  have hL_hi : torusNormalLen defGeometry 100 0 0 ≤ 0.001 + 1.1e-10 := by
    simp only [torusNormalLen]
    have h1 : Real.sqrt
        ((torusNormalRaw defGeometry 100 0 0).1 *
          (torusNormalRaw defGeometry 100 0 0).1 +
        (torusNormalRaw defGeometry 100 0 0).2.1 *
          (torusNormalRaw defGeometry 100 0 0).2.1 +
        (torusNormalRaw defGeometry 100 0 0).2.2 *
          (torusNormalRaw defGeometry 100 0 0).2.2) < 0.001 + 5.3e-14 :=
      (Real.sqrt_lt' (by norm_num)).mpr (by nlinarith [hArg_hi])
    linarith
  have hLpos : (0 : ℝ) < torusNormalLen defGeometry 100 0 0 := by linarith
  -- normalised components
  have hn1_lo : (0.9999 : ℝ) ≤ (torusNormalRaw defGeometry 100 0 0).1 /
      torusNormalLen defGeometry 100 0 0 := by
    rw [hAv, le_div_iff₀ hLpos]
    nlinarith [hL_hi]
  have hn1_hi : (torusNormalRaw defGeometry 100 0 0).1 /
      torusNormalLen defGeometry 100 0 0 ≤ 1 := by
    rw [hAv, div_le_one hLpos]
    linarith
  have hn2_lo : (0 : ℝ) ≤ (torusNormalRaw defGeometry 100 0 0).2.1 /
      torusNormalLen defGeometry 100 0 0 := div_nonneg hB0.le hLpos.le
  have hn2_hi : (torusNormalRaw defGeometry 100 0 0).2.1 /
      torusNormalLen defGeometry 100 0 0 ≤ 5.3e-6 := by
    rw [div_le_iff₀ hLpos]
    nlinarith [hL_lo]
  have hn3_lo : (0 : ℝ) ≤ (torusNormalRaw defGeometry 100 0 0).2.2 /
      torusNormalLen defGeometry 100 0 0 := div_nonneg hC0.le hLpos.le
  have hn3_hi : (torusNormalRaw defGeometry 100 0 0).2.2 /
      torusNormalLen defGeometry 100 0 0 ≤ 5.3e-6 := by
    rw [div_le_iff₀ hLpos]
    nlinarith [hL_lo]
  -- a box bound for the post-collision signed distance
  have final : ∀ x1 y1 z1 : ℝ, -3.34 ≤ x1 → x1 ≤ -3.32 →
      -5.5e-4 ≤ y1 → y1 ≤ 0 → -5.5e-4 ≤ z1 → z1 ≤ 0 →
      defGeometry.torusSDF x1 y1 z1 > 1 := by
    intro x1 y1 z1 h1 h2 h3 h4 h5 h6
    simp only [TokamakGeometry.torusSDF, defGeometry]
    have ht_lo : (3.32 : ℝ) ≤ Real.sqrt (x1 * x1 + z1 * z1) :=
      Real.le_sqrt_of_sq_le (by nlinarith)
    have ht_hi : Real.sqrt (x1 * x1 + z1 * z1) < 3.35 :=
      (Real.sqrt_lt' (by norm_num)).mpr (by nlinarith)
    have h2_lo : (2.12 : ℝ) ≤ Real.sqrt
        ((Real.sqrt (x1 * x1 + z1 * z1) - 1.2) *
         (Real.sqrt (x1 * x1 + z1 * z1) - 1.2) + y1 * y1) :=
      Real.le_sqrt_of_sq_le (by nlinarith)
    linarith
  -- unfold the collision response at the concrete particle
  simp only [checkBoundaryCollision3D, createParticle_x, createParticle_y,
    createParticle_z]
  rw [hsdf0]
  rw [if_pos (by norm_num : (98.4 : ℝ) > 0.0)]
  rw [if_neg (by norm_num [defParams] :
    ¬ defParams.wallLossProbability > 0.0)]
  rw [torusNormal_decompose]
  dsimp only
  apply final
  · nlinarith [hn1_lo, hn1_hi]
  · nlinarith [hn1_lo, hn1_hi]
  · nlinarith [hn2_lo, hn2_hi]
  · nlinarith [hn2_lo, hn2_hi]
  · nlinarith [hn3_lo, hn3_hi]
  · nlinarith [hn3_lo, hn3_hi]

end Lemmas

end NeuroFusion
